import Mathlib

/-
  Verification development for the traefik-cloudrun-provider repository.

  The Go sources are shallowly embedded as executable Lean definitions:
  - provider/labels.go        : label DSL parser (extractRouterConfigs)
  - provider/config.go        : DynamicConfig assembler (AddRouterWithSource,
                                isDedicatedService, AddAuthMiddleware, ...)
  - internal/gcp/token_manager.go : TokenManager.GetToken with cache
  - provider/provider.go      : processService / updateConfig reconciliation
  - plugin/plugin.go          : bounded single-slot handoff with 60s timeout

  Go maps are modelled as association lists with in-place replacement
  (insertStr); map iteration order, which Go randomizes, becomes explicit
  list order.  Time is modelled in seconds as Nat.  Network effects of the
  token fetchers are modelled by oracle functions from audience to the raw
  fetch outcome, so that GetToken itself is a pure state transformer.
  String operations from the Go strings package are re-implemented over
  List Char so that all definitions evaluate by kernel reduction.
  Apostrophes occurring in error-message literals of the source are elided
  from the corresponding string constants here.
-/

set_option maxRecDepth 10000
set_option maxHeartbeats 2000000

/- ### Character-list models of the Go strings package -/

/-- Character predicate used by trimming (ASCII whitespace). -/
def isSpaceChar (c : Char) : Bool :=
  c == ' ' || c == '\t' || c == '\n' || c == '\r'

/-- Whether the first list is a prefix of the second (Boolean). -/
def isHeadOf : List Char → List Char → Bool
  | [], _ => true
  | _ :: _, [] => false
  | a :: as, b :: bs => a == b && isHeadOf as bs

/-- Go strings.HasPrefix. -/
def strStartsWith (s p : String) : Bool :=
  isHeadOf p.data s.data

/-- Go strings.HasSuffix. -/
def strEndsWith (s p : String) : Bool :=
  isHeadOf p.data.reverse s.data.reverse

/-- Go strings.Contains (scan for an occurrence of sub). -/
def containsChars (sub : List Char) : List Char → Bool
  | [] => isHeadOf sub []
  | c :: cs => isHeadOf sub (c :: cs) || containsChars sub cs

/-- Go strings.Contains. -/
def strContains (s sub : String) : Bool :=
  containsChars sub.data s.data

/-- Go strings.TrimSpace (ASCII whitespace model). -/
def strTrim (s : String) : String :=
  String.mk (((s.data.dropWhile isSpaceChar).reverse.dropWhile isSpaceChar).reverse)

/-- Go strings.TrimSuffix. -/
def strTrimSuffix (s suf : String) : String :=
  if strEndsWith s suf then String.mk (s.data.take (s.data.length - suf.data.length)) else s

/-- Splitting worker: fuel-indexed scan producing the pieces between
    non-overlapping occurrences of sep (sep nonempty). -/
def splitChars (sep : List Char) : Nat → List Char → List Char → List (List Char)
  | _, [], cur => [cur.reverse]
  | 0, cs, cur => [cur.reverse ++ cs]
  | fuel + 1, c :: cs, cur =>
    if isHeadOf sep (c :: cs) then
      cur.reverse :: splitChars sep fuel (cs.drop (sep.length - 1)) []
    else
      splitChars sep fuel cs (c :: cur)

/-- Go strings.Split (for nonempty separators; the empty-separator case is
    never exercised by the embedded code). -/
def strSplit (s sep : String) : List String :=
  if sep.data.isEmpty then [s]
  else (splitChars sep.data s.data.length s.data []).map String.mk

/-- Go strings.Join. -/
def strJoin (parts : List String) (sep : String) : String :=
  match parts with
  | [] => ""
  | p :: ps => ps.foldl (fun acc q => acc ++ sep ++ q) p

/-- Go strings.SplitN for n > 0 and nonempty separator: at most n pieces,
    the last piece containing the unsplit remainder. -/
def strSplitN (s sep : String) (n : Nat) : List String :=
  let ps := strSplit s sep
  if ps.length ≤ n then ps
  else ps.take (n - 1) ++ [strJoin (ps.drop (n - 1)) sep]

/-- Replacement worker: fuel-indexed scan replacing non-overlapping
    occurrences of pat by rep. -/
def replaceChars (pat rep : List Char) : Nat → List Char → List Char
  | _, [] => []
  | 0, cs => cs
  | fuel + 1, c :: cs =>
    if isHeadOf pat (c :: cs) then
      rep ++ replaceChars pat rep fuel (cs.drop (pat.length - 1))
    else
      c :: replaceChars pat rep fuel cs

/-- Go strings.ReplaceAll (for nonempty patterns). -/
def strReplaceAll (s pat rep : String) : String :=
  if pat.data.isEmpty then s
  else String.mk (replaceChars pat.data rep.data s.data.length s.data)

/- ### Association-list model of Go maps (in-place replacement) -/

/-- Lookup in a Go map modelled as an association list. -/
def lookupStr {α : Type} : List (String × α) → String → Option α
  | [], _ => none
  | (k, v) :: rest, key => if k = key then some v else lookupStr rest key

/-- Map assignment m[k] = v: replace the binding in place, or append. -/
def insertStr {α : Type} : List (String × α) → String → α → List (String × α)
  | [], key, v => [(key, v)]
  | (k, w) :: rest, key, v =>
    if k = key then (key, v) :: rest else (k, w) :: insertStr rest key v

/- ### provider/labels.go -/

/-- RouterConfig from provider/labels.go. -/
structure RouterConfig where
  Rule : String := ""
  Service : String := ""
  Priority : Int := 0
  EntryPoints : List String := []
  Middlewares : List String := []
deriving Repr, DecidableEq

/-- ServerConfig from provider/labels.go. -/
structure ServerConfig where
  URL : String := ""
deriving Repr, DecidableEq

/-- LoadBalancerConfig from provider/labels.go. -/
structure LoadBalancerConfig where
  Servers : List ServerConfig := []
  PassHostHeader : Bool := false
deriving Repr, DecidableEq

/-- ServiceConfig from provider/labels.go. -/
structure ServiceConfig where
  LoadBalancer : LoadBalancerConfig := {}
deriving Repr, DecidableEq

/-- ruleMap from provider/labels.go:36-50. -/
def ruleMap : List (String × String) := [
  ("home-index-root", "PathPrefix(`/`)"),
  ("home-index-signin", "Path(`/sign-in`) || Path(`/sign-up`)"),
  ("home-seo", "PathPrefix(`/api/seo`)"),
  ("labs-analytics", "PathPrefix(`/api/analytics`)"),
  ("lab1", "PathPrefix(`/lab1`)"),
  ("lab1-static", "PathPrefix(`/lab1/css/`) || PathPrefix(`/lab1/js/`) || PathPrefix(`/lab1/images/`) || PathPrefix(`/lab1/img/`) || PathPrefix(`/lab1/static/`) || PathPrefix(`/lab1/assets/`)"),
  ("lab1-c2", "PathPrefix(`/lab1/c2`)"),
  ("lab2", "PathPrefix(`/lab2`)"),
  ("lab2-static", "PathPrefix(`/lab2/css/`) || PathPrefix(`/lab2/js/`) || PathPrefix(`/lab2/images/`) || PathPrefix(`/lab2/img/`) || PathPrefix(`/lab2/static/`) || PathPrefix(`/lab2/assets/`)"),
  ("lab2-c2", "PathPrefix(`/lab2/c2`)"),
  ("lab3", "PathPrefix(`/lab3`)"),
  ("lab3-static", "PathPrefix(`/lab3/css/`) || PathPrefix(`/lab3/js/`) || PathPrefix(`/lab3/images/`) || PathPrefix(`/lab3/img/`) || PathPrefix(`/lab3/static/`) || PathPrefix(`/lab3/assets/`)"),
  ("lab3-extension", "PathPrefix(`/lab3/extension`)")]

/-- defaultPriorityMap from provider/labels.go:62-79. -/
def defaultPriorityMap : List (String × Int) := [
  ("home-index", 1),
  ("home-index-root", 1),
  ("home-index-signin", 100),
  ("home-seo", 500),
  ("labs-analytics", 500),
  ("lab1", 200),
  ("lab1-static", 250),
  ("lab1-c2", 300),
  ("lab2", 200),
  ("lab2-main", 200),
  ("lab2-static", 250),
  ("lab2-c2", 300),
  ("lab3", 200),
  ("lab3-main", 200),
  ("lab3-static", 250),
  ("lab3-extension", 300)]

/-- getDefaultPriority from provider/labels.go:83-89. -/
def getDefaultPriority (routerName : String) : Int :=
  (lookupStr defaultPriorityMap routerName).getD 200

/-- Leading digits of a character list as a number (none when no digit). -/
def scanDigits : List Char → Option Nat → Option Nat
  | [], acc => acc
  | c :: cs, acc =>
    if c.isDigit then scanDigits cs (some ((acc.getD 0) * 10 + (c.toNat - 48)))
    else acc

/-- Model of fmt.Sscanf(value, "%d", &out): skip leading blanks, optional
    sign, then at least one digit; on failure the target is unchanged. -/
def sscanfInt (value : String) : Option Int :=
  let cs := value.data.dropWhile isSpaceChar
  match cs with
  | '-' :: rest => (scanDigits rest none).map (fun n => -(n : Int))
  | '+' :: rest => (scanDigits rest none).map (fun n => (n : Int))
  | _ => (scanDigits cs none).map (fun n => (n : Int))

/-- The entrypoints label handler from provider/labels.go:142-150:
    comma-split, trim each entry, substitute the default on an empty list. -/
def parseEntryPoints (value : String) : List String :=
  let eps := (strSplit value ",").map strTrim
  if eps.isEmpty then ["web"] else eps

/-- Separator choice for the middlewares label (provider/labels.go:152-160):
    double-underscore is preferred, then semicolon, then comma. -/
def chooseSeparatorSplit (value : String) : List String :=
  if strContains value "__" then strSplit value "__"
  else if strContains value ";" then strSplit value ";"
  else strSplit value ","

/-- The -file to @file rewrite from provider/labels.go:165-167. -/
def rewriteFileSuffix (part : String) : String :=
  if strEndsWith part "-file" then strTrimSuffix part "-file" ++ "@file" else part

/-- The middlewares label handler from provider/labels.go:151-170: split on
    the chosen separator, trim each token, drop empty tokens, rewrite the
    -file suffix, appending to the already accumulated middleware list. -/
def parseMiddlewares (mws : List String) (value : String) : List String :=
  (chooseSeparatorSplit value).foldl
    (fun acc p =>
      let p := strTrim p
      if p ≠ "" then acc ++ [rewriteFileSuffix p] else acc)
    mws

/-- Fresh router entry from provider/labels.go:112-116: smart default
    priority, default entry point list, no middlewares. -/
def initRouter (routerName : String) : RouterConfig :=
  { Rule := "", Service := "", Priority := getDefaultPriority routerName,
    EntryPoints := ["web"], Middlewares := [] }

/-- The property switch from provider/labels.go:126-171. -/
def applyProperty (router : RouterConfig) (property value : String) : RouterConfig :=
  if property = "rule" then
    match lookupStr ruleMap value with
    | some mapped => { router with Rule := mapped }
    | none => { router with Rule := value }
  else if property = "rule_id" then
    match lookupStr ruleMap value with
    | some mapped => { router with Rule := mapped }
    | none => router
  else if property = "service" then { router with Service := value }
  else if property = "priority" then
    match sscanfInt value with
    | some n => { router with Priority := n }
    | none => router
  else if property = "entrypoints" then { router with EntryPoints := parseEntryPoints value }
  else if property = "middlewares" then
    { router with Middlewares := parseMiddlewares router.Middlewares value }
  else router

/-- The entry-point backstop used at provider/labels.go:122-124, 174-176 and
    181-186: replace an empty entry-point list by the default. -/
def ensureEntryPoints (router : RouterConfig) : RouterConfig :=
  if router.EntryPoints.isEmpty then { router with EntryPoints := ["web"] } else router

/-- One iteration of the label loop in extractRouterConfigs
    (provider/labels.go:97-178). -/
def processLabel (routers : List (String × RouterConfig)) (key value : String) :
    List (String × RouterConfig) :=
  if !strStartsWith key "traefik_http_routers_" then routers
  else
    let parts := strSplitN key "_" 5
    if parts.length < 5 then routers
    else
      let routerName := parts.getD 3 ""
      let property := parts.getD 4 ""
      let ruleIsEmpty :=
        match lookupStr routers routerName with
        | some r => r.Rule == ""
        | none => true
      let routers1 :=
        if ruleIsEmpty then insertStr routers routerName (initRouter routerName) else routers
      let router := (lookupStr routers1 routerName).getD (initRouter routerName)
      let router := ensureEntryPoints router
      let router := applyProperty router property value
      let router := ensureEntryPoints router
      insertStr routers1 routerName router

/-- extractRouterConfigs from provider/labels.go:93-190.  Go map iteration
    over the labels becomes iteration over the association list. -/
def extractRouterConfigs (labels : List (String × String)) (_serviceName : String) :
    List (String × RouterConfig) :=
  let routers := labels.foldl (fun rs kv => processLabel rs kv.1 kv.2) []
  routers.map (fun nr => (nr.1, ensureEntryPoints nr.2))

example : parseMiddlewares [] "a__b__c" = ["a", "b", "c"] := by decide

example : parseMiddlewares [] "x-file" = ["x@file"] := by decide

example : parseEntryPoints "web, internal" = ["web", "internal"] := by decide

example :
    lookupStr (extractRouterConfigs [("traefik_http_routers_widget_rule", "Host(`a`)")] "svc")
      "widget" =
    some { Rule := "Host(`a`)", Service := "", Priority := 200,
           EntryPoints := ["web"], Middlewares := [] } := by decide

/- ### provider/config.go -/

/-- ForwardAuthConfig from provider/config.go:29-34. -/
structure ForwardAuthConfig where
  Address : String := ""
  TrustForwardHeader : Bool := false
  AuthResponseHeaders : List String := []
  AuthRequestHeaders : List String := []
deriving Repr, DecidableEq

/-- ForwardedHeadersConfig from provider/config.go:43-46. -/
structure ForwardedHeadersConfig where
  Insecure : Bool := false
  TrustedIPs : List String := []
deriving Repr, DecidableEq

/-- HeadersConfig from provider/config.go:37-40. -/
structure HeadersConfig where
  CustomRequestHeaders : List (String × String) := []
  ForwardedHeaders : Option ForwardedHeadersConfig := none
deriving Repr, DecidableEq

/-- MiddlewareConfig from provider/config.go:22-25. -/
structure MiddlewareConfig where
  Headers : Option HeadersConfig := none
  ForwardAuth : Option ForwardAuthConfig := none
deriving Repr, DecidableEq

/-- DynamicConfig from provider/config.go:9-19, flattening the HTTPConfig
    wrapper into its three maps plus the internal routerSources map. -/
structure DynamicConfig where
  Routers : List (String × RouterConfig) := []
  Services : List (String × ServiceConfig) := []
  Middlewares : List (String × MiddlewareConfig) := []
  routerSources : List (String × String) := []
deriving Repr, DecidableEq

/-- NewDynamicConfig from provider/config.go:54-63. -/
def NewDynamicConfig : DynamicConfig := {}

/-- The environment suffixes stripped by isDedicatedService
    (provider/config.go:106). -/
def envSuffixes : List String := ["-stg", "-prd", "-dev", "-staging", "-production"]

/-- The suffix-stripping normalization from provider/config.go:105-108. -/
def stripEnvSuffixes (serviceName : String) : String :=
  envSuffixes.foldl (fun s suf => strTrimSuffix s suf) serviceName

/-- isDedicatedService from provider/config.go:100-122. -/
def isDedicatedService (routerName serviceName : String) : Bool :=
  let normalizedService := stripEnvSuffixes serviceName
  if normalizedService = routerName then true
  else
    let normalizedRouter := strReplaceAll routerName "-" ""
    let normalizedServiceNoHyphen := strReplaceAll normalizedService "-" ""
    normalizedServiceNoHyphen = normalizedRouter

/-- AddRouterWithSource from provider/config.go:75-95. -/
def DynamicConfig.AddRouterWithSource (c : DynamicConfig) (name : String)
    (config : RouterConfig) (sourceName : String) : DynamicConfig :=
  match lookupStr c.routerSources name with
  | some existingSource =>
    if isDedicatedService name existingSource && !isDedicatedService name sourceName then c
    else
      { c with Routers := insertStr c.Routers name config,
               routerSources := insertStr c.routerSources name sourceName }
  | none =>
    { c with Routers := insertStr c.Routers name config,
             routerSources := insertStr c.routerSources name sourceName }

/-- AddService from provider/config.go:125-127. -/
def DynamicConfig.AddService (c : DynamicConfig) (name : String)
    (config : ServiceConfig) : DynamicConfig :=
  { c with Services := insertStr c.Services name config }

/-- AddAuthMiddleware from provider/config.go:195-222: skip entirely on an
    empty token, otherwise set the X-Serverless-Authorization request header
    to the bearer token. -/
def DynamicConfig.AddAuthMiddleware (c : DynamicConfig) (name token : String) : DynamicConfig :=
  if token = "" then c
  else
    let mw : MiddlewareConfig :=
      { Headers := some
          { CustomRequestHeaders := [("X-Serverless-Authorization", "Bearer " ++ token)],
            ForwardedHeaders := none },
        ForwardAuth := none }
    { c with Middlewares := insertStr c.Middlewares name mw }

/-- AddTraefikInternalRouters from provider/config.go:244-260. -/
def DynamicConfig.AddTraefikInternalRouters (c : DynamicConfig) : DynamicConfig :=
  let apiRouter : RouterConfig :=
    { Rule := "PathPrefix(`/api/http`) || PathPrefix(`/api/rawdata`) || PathPrefix(`/api/overview`) || Path(`/api/version`)",
      Service := "api@internal", Priority := 1000,
      EntryPoints := ["web"], Middlewares := [] }
  let dashboardRouter : RouterConfig :=
    { Rule := "PathPrefix(`/dashboard`)",
      Service := "api@internal", Priority := 1000,
      EntryPoints := ["web"], Middlewares := [] }
  let c := { c with Routers := insertStr c.Routers "traefik-api" apiRouter }
  { c with Routers := insertStr c.Routers "traefik-dashboard" dashboardRouter }

/-- AddForwardAuthMiddleware from provider/config.go:264-292. -/
def DynamicConfig.AddForwardAuthMiddleware (c : DynamicConfig)
    (name homeIndexURL : String) : DynamicConfig :=
  if homeIndexURL = "" then c
  else
    let mw : MiddlewareConfig :=
      { Headers := none,
        ForwardAuth := some
          { Address := homeIndexURL ++ "/api/auth/check",
            TrustForwardHeader := true,
            AuthResponseHeaders := ["X-User-Id", "X-User-Email", "X-Authorization"],
            AuthRequestHeaders :=
              ["Authorization", "Cookie", "X-Forwarded-For", "X-Forwarded-Host"] } }
    { c with Middlewares := insertStr c.Middlewares name mw }

/- ### internal/gcp/token_manager.go -/

/-- CachedToken from internal/gcp/token_manager.go:26-29; time in seconds. -/
structure CachedToken where
  Token : String := ""
  ExpiresAt : Nat := 0
deriving Repr, DecidableEq

/-- The mutable fields of TokenManager (internal/gcp/token_manager.go:17-23);
    the RWMutex disappears in this sequential model. -/
structure TokenManagerState where
  cache : List (String × CachedToken) := []
  devMode : Bool := false
  metadataChecked : Bool := false
  hasMetadata : Bool := false
deriving Repr, DecidableEq

/-- NewTokenManager from internal/gcp/token_manager.go:32-41, with the
    environment-derived devMode flag as a parameter. -/
def NewTokenManager (devMode : Bool) : TokenManagerState :=
  { cache := [], devMode := devMode, metadataChecked := false, hasMetadata := false }

/-- Outcome of the HTTP transaction against the metadata server performed by
    fetchFromMetadata (internal/gcp/token_manager.go:118-139), before the
    token-format validation. -/
inductive MetadataResult where
  | netError (msg : String)
  | httpError (status : Nat) (body : String)
  | body (raw : String)
deriving Repr, DecidableEq

/-- Outcome of the ADC token exchange performed by fetchFromADC
    (internal/gcp/token_manager.go:151-163), before the emptiness check. -/
inductive ADCResult where
  | sourceError (msg : String)
  | tokenError (msg : String)
  | token (accessToken : String)
deriving Repr, DecidableEq

/-- The network environment of the token manager: deterministic oracles for
    the two fetch mechanisms. -/
structure Oracles where
  metadataHTTP : String → MetadataResult
  adc : String → ADCResult

/-- fetchFromMetadata from internal/gcp/token_manager.go:110-147: on a
    successful HTTP exchange the body is trimmed and must carry the eyJ
    signed-token marker; every other outcome is an error whose message
    wraps the transport error. -/
def fetchFromMetadata (o : Oracles) (audience : String) : Except String String :=
  match o.metadataHTTP audience with
  | .netError msg => .error ("failed to fetch token from metadata server: " ++ msg)
  | .httpError status body =>
    .error ("metadata server returned " ++ toString status ++ ": " ++ body)
  | .body raw =>
    let tokenStr := strTrim raw
    if strStartsWith tokenStr "eyJ" then .ok tokenStr
    else .error "token does not look valid (does not start with eyJ)"

/-- fetchFromADC from internal/gcp/token_manager.go:151-170: only an empty
    access token is rejected; no format validation is performed. -/
def fetchFromADC (o : Oracles) (audience : String) : Except String String :=
  match o.adc audience with
  | .sourceError msg => .error ("failed to create token source with ADC: " ++ msg)
  | .tokenError msg => .error ("failed to fetch token from ADC: " ++ msg)
  | .token accessToken =>
    if accessToken = "" then .error "ADC returned empty token" else .ok accessToken

/-- Result of a GetToken call: the returned value, the successor state, and
    how many fetch attempts (metadata or ADC) were performed. -/
structure GetTokenResult where
  result : Except String String
  state : TokenManagerState
  fetchCount : Nat
deriving Repr

/-- The cache write at internal/gcp/token_manager.go:98-103: store the token
    under the audience with expiry 55 minutes (3300 seconds) from now. -/
def cacheStore (tm : TokenManagerState) (audience token : String) (now : Nat) :
    TokenManagerState :=
  { tm with cache := insertStr tm.cache audience { Token := token, ExpiresAt := now + 55 * 60 } }

/-- The fetch path of GetToken (internal/gcp/token_manager.go:56-105),
    entered on a cache miss.  Note that the development-mode fallback taken
    immediately after discovering the metadata server is unavailable
    (line 74) returns the ADC result directly and never reaches the cache
    write at line 99. -/
def getTokenFetch (o : Oracles) (now : Nat) (tm : TokenManagerState) (audience : String) :
    GetTokenResult :=
  if !tm.metadataChecked || tm.hasMetadata then
    match fetchFromMetadata o audience with
    | .error e =>
      if strContains e "no such host" || strContains e "lookup metadata.google.internal" then
        let tm1 := { tm with metadataChecked := true, hasMetadata := false }
        if tm.devMode then
          match fetchFromADC o audience with
          | .error e2 => { result := .error e2, state := tm1, fetchCount := 2 }
          | .ok token => { result := .ok token, state := tm1, fetchCount := 2 }
        else
          { result := .error "metadata server not available (running locally?): use CLOUDRUN_PROVIDER_DEV_MODE=true and gcloud auth application-default login",
            state := tm1, fetchCount := 1 }
      else { result := .error e, state := tm, fetchCount := 1 }
    | .ok token =>
      let tm1 := { tm with metadataChecked := true, hasMetadata := true }
      { result := .ok token, state := cacheStore tm1 audience token now, fetchCount := 1 }
  else if tm.devMode then
    match fetchFromADC o audience with
    | .error e => { result := .error e, state := tm, fetchCount := 1 }
    | .ok token => { result := .ok token, state := cacheStore tm audience token now, fetchCount := 1 }
  else
    { result := .error "metadata server not available and dev mode disabled",
      state := tm, fetchCount := 0 }

/-- GetToken from internal/gcp/token_manager.go:46-106: serve from the cache
    while now is strictly before the stored expiry, otherwise fetch. -/
def GetToken (o : Oracles) (now : Nat) (tm : TokenManagerState) (audience : String) :
    GetTokenResult :=
  match lookupStr tm.cache audience with
  | some cached =>
    if now < cached.ExpiresAt then { result := .ok cached.Token, state := tm, fetchCount := 0 }
    else getTokenFetch o now tm audience
  | none => getTokenFetch o now tm audience

/- ### provider/provider.go -/

/-- CloudRunService as consumed by processService (provider/discovery.go):
    name, connection URL, project, and the flat label map. -/
structure CloudRunService where
  Name : String := ""
  URL : String := ""
  ProjectID : String := ""
  Labels : List (String × String) := []
deriving Repr, DecidableEq

/-- The two environment flags read by the reconciliation code
    (USER_AUTH_ENABLED and the deprecated SKIP_AUTH_CHECK). -/
structure ProcEnv where
  userAuthEnabled : Bool := false
  skipAuthCheckEnv : Bool := false
deriving Repr, DecidableEq

/-- stripPrefixMap from provider/provider.go (getStripPrefixMiddleware). -/
def stripPrefixMap : List (String × String) := [
  ("lab1", "strip-lab1-prefix@file"),
  ("lab1-static", "strip-lab1-prefix@file"),
  ("lab1-c2", "strip-lab1-c2-prefix@file"),
  ("lab2", "strip-lab2-prefix@file"),
  ("lab2-main", "strip-lab2-prefix@file"),
  ("lab2-static", "strip-lab2-prefix@file"),
  ("lab2-c2", "strip-lab2-c2-prefix@file"),
  ("lab3", "strip-lab3-prefix@file"),
  ("lab3-main", "strip-lab3-prefix@file"),
  ("lab3-static", "strip-lab3-prefix@file"),
  ("lab3-extension", "strip-lab3-extension-prefix@file"),
  ("home-seo", "strip-seo-prefix@file"),
  ("labs-analytics", "strip-analytics-prefix@file")]

/-- getStripPrefixMiddleware from provider/provider.go:533-575: exact table
    match first, then a name-pattern match skipping -c2 and -extension
    routers (those always hit the exact table or get nothing). -/
def getStripPrefixMiddleware (routerName _rule : String) : String :=
  match lookupStr stripPrefixMap routerName with
  | some middleware => middleware
  | none =>
    match stripPrefixMap.find? (fun pm =>
        strStartsWith routerName (pm.1 ++ "-") &&
        !(strContains routerName "-c2" || strContains routerName "-extension")) with
    | some pm => pm.2
    | none => ""

/-- The auth-check filter from provider/provider.go:413-425: with user auth
    disabled, drop middleware references containing auth-check. -/
def filterAuthCheck (skipAuthCheck : Bool) (mws : List String) : List String :=
  if skipAuthCheck then mws.filter (fun mw => !strContains mw "auth-check") else mws

/-- The strip-prefix presence test from provider/provider.go:432-438. -/
def hasStripPrefixMw (mws : List String) : Bool :=
  mws.any (fun mw => strContains mw "strip-" && strContains mw "-prefix")

/-- The strip-prefix auto-injection from provider/provider.go:427-446:
    append the mapped middleware when none is present yet. -/
def injectStripPrefixMw (routerName rule : String) (mws : List String) : List String :=
  let stripMw := getStripPrefixMiddleware routerName rule
  if stripMw ≠ "" && !hasStripPrefixMw mws then mws ++ [stripMw] else mws

/-- The service-auth injection from provider/provider.go:448-465: when the
    auth middleware was created and is not already referenced (plainly or
    via @file), prepend it so it runs first. -/
def injectServiceAuthMw (authMiddlewareCreated : Bool) (authMiddlewareName : String)
    (mws : List String) : List String :=
  if authMiddlewareCreated then
    let hasServiceAuth :=
      mws.any (fun mw => mw == authMiddlewareName || mw == authMiddlewareName ++ "@file")
    if hasServiceAuth then mws else authMiddlewareName :: mws
  else mws

/-- The retry injection from provider/provider.go:467-477: always append the
    cold-start retry middleware at the end, unless already present. -/
def injectRetryMw (mws : List String) : List String :=
  if mws.any (fun mw => mw == "retry-cold-start@file") then mws
  else mws ++ ["retry-cold-start@file"]

/-- The complete per-router middleware pipeline of the processService loop
    body (provider/provider.go:410-502). -/
def transformRouter (skipAuthCheck authMiddlewareCreated : Bool)
    (authMiddlewareName routerName : String) (rc : RouterConfig) : RouterConfig :=
  let mws := filterAuthCheck skipAuthCheck rc.Middlewares
  let mws := injectStripPrefixMw routerName rc.Rule mws
  let mws := injectServiceAuthMw authMiddlewareCreated authMiddlewareName mws
  let mws := injectRetryMw mws
  { rc with Middlewares := mws }

/-- Service-name resolution from provider/provider.go:317-324: the first
    parsed router carrying an explicit service wins, else the Cloud Run
    service name. -/
def resolveServiceName (routerConfigs : List (String × RouterConfig))
    (serviceName : String) : String :=
  match routerConfigs.find? (fun nr => nr.2.Service ≠ "") with
  | some nr => nr.2.Service
  | none => serviceName

/-- The back-fill of empty router services from provider/provider.go:326-335. -/
def fillServiceNames (routerConfigs : List (String × RouterConfig)) (name : String) :
    List (String × RouterConfig) :=
  routerConfigs.map (fun nr =>
    if nr.2.Service = "" then (nr.1, { nr.2 with Service := name }) else nr)

/-- Outcome of the token acquisition in processService. -/
structure TokenOutcome where
  serviceToken : String
  state : TokenManagerState
  fetchCount : Nat
deriving Repr

/-- The token acquisition and validation from provider/provider.go:337-387:
    a GetToken failure or a token without the eyJ marker degrades to the
    empty token (the service is still emitted, without auth). -/
def computeServiceToken (o : Oracles) (now : Nat) (tm : TokenManagerState)
    (url : String) : TokenOutcome :=
  let r := GetToken o now tm url
  match r.result with
  | .error _ => { serviceToken := "", state := r.state, fetchCount := r.fetchCount }
  | .ok token =>
    if !strStartsWith token "eyJ" then
      { serviceToken := "", state := r.state, fetchCount := r.fetchCount }
    else
      { serviceToken := token, state := r.state, fetchCount := r.fetchCount }

/-- processService from provider/provider.go:293-524. -/
def processService (o : Oracles) (now : Nat) (env : ProcEnv) (service : CloudRunService)
    (config : DynamicConfig) (tm : TokenManagerState) :
    Except String (DynamicConfig × TokenManagerState) :=
  let routerConfigs := extractRouterConfigs service.Labels service.Name
  if routerConfigs.isEmpty then .error "no router labels found"
  else
    let serviceNameFromLabel := resolveServiceName routerConfigs service.Name
    let routerConfigs := fillServiceNames routerConfigs serviceNameFromLabel
    let outcome := computeServiceToken o now tm service.URL
    let serviceToken := outcome.serviceToken
    let tm := outcome.state
    let authMiddlewareName := serviceNameFromLabel ++ "-auth"
    let authMiddlewareCreated := serviceToken ≠ ""
    let config :=
      if serviceToken ≠ "" then config.AddAuthMiddleware authMiddlewareName serviceToken
      else config
    let skipAuthCheck := env.skipAuthCheckEnv || !env.userAuthEnabled
    let config := routerConfigs.foldl
      (fun cfg nr =>
        cfg.AddRouterWithSource nr.1
          (transformRouter skipAuthCheck authMiddlewareCreated authMiddlewareName nr.1 nr.2)
          service.Name)
      config
    let serviceConfig : ServiceConfig :=
      { LoadBalancer := { Servers := [{ URL := service.URL }], PassHostHeader := false } }
    let config := config.AddService serviceNameFromLabel serviceConfig
    .ok (config, tm)

/-- Accumulator of the discovery loop in updateConfig. -/
structure CycleAcc where
  config : DynamicConfig
  tm : TokenManagerState
  homeIndexURL : String
deriving Repr

/-- One service of the discovery loop in updateConfig
    (provider/provider.go:192-228): only services labelled
    traefik_enable=true are processed; a processService failure skips the
    service; successfully processed services containing home-index in the
    name have their URL captured for the user-auth middlewares. -/
def processEnabledService (o : Oracles) (now : Nat) (env : ProcEnv) (acc : CycleAcc)
    (service : CloudRunService) : CycleAcc :=
  match lookupStr service.Labels "traefik_enable" with
  | some enabled =>
    if enabled = "true" then
      match processService o now env service acc.config acc.tm with
      | .error _ => acc
      | .ok (config, tm) =>
        let homeIndexURL :=
          if strContains service.Name "home-index" && service.URL ≠ "" then service.URL
          else acc.homeIndexURL
        { config := config, tm := tm, homeIndexURL := homeIndexURL }
    else acc
  | none => acc

/-- updateConfig from provider/provider.go:154-290, with the directory query
    abstracted into the given service list (single partition; several
    partitions concatenate their listings in order). -/
def updateConfig (o : Oracles) (now : Nat) (env : ProcEnv)
    (services : List CloudRunService) (tm : TokenManagerState) :
    DynamicConfig × TokenManagerState :=
  let acc0 : CycleAcc := { config := NewDynamicConfig, tm := tm, homeIndexURL := "" }
  let acc := services.foldl (fun a s => processEnabledService o now env a s) acc0
  let config := acc.config
  let config :=
    if env.userAuthEnabled && acc.homeIndexURL ≠ "" then
      ((config.AddForwardAuthMiddleware "lab1-auth-check" acc.homeIndexURL).AddForwardAuthMiddleware
          "lab2-auth-check" acc.homeIndexURL).AddForwardAuthMiddleware
        "lab3-auth-check" acc.homeIndexURL
    else config
  (config.AddTraefikInternalRouters, acc.tm)

/- ### plugin/plugin.go handoff -/

/-- Capacity of the internal configuration channel
    (plugin/plugin.go:281, make(chan *provider.DynamicConfig, 1)). -/
def internalConfigChanCapacity : Nat := 1

/-- The handoff timeout of PluginProvider.updateConfig
    (plugin/plugin.go:325, time.After(60 * time.Second)), in seconds. -/
def handoffTimeoutSeconds : Nat := 60

/-- Model of the select at plugin/plugin.go:294-331: the cycle either
    receives the finished configuration within the timeout and succeeds
    with it, or fails with the timeout error.  The argument is the arrival
    offset of the internal provider's finished configuration on the
    single-slot channel (none when it never arrives). -/
def pluginAwaitConfig (arrival : Option (Nat × DynamicConfig)) : Except String DynamicConfig :=
  match arrival with
  | some (t, cfg) =>
    if t < handoffTimeoutSeconds then .ok cfg
    else .error "timeout waiting for configuration"
  | none => .error "timeout waiting for configuration"

/-- Model of pollLoop (plugin/plugin.go:218-249): each tick runs one cycle;
    a failed cycle publishes nothing and the loop simply proceeds to the
    next tick.  Returns the list of published configurations. -/
def pluginPollLoop (arrivals : List (Option (Nat × DynamicConfig))) : List DynamicConfig :=
  arrivals.foldl
    (fun published a =>
      match pluginAwaitConfig a with
      | .ok cfg => published ++ [cfg]
      | .error _ => published)
    []

/- ### Helper lemmas about the map model -/

theorem lookup_insert_self {α : Type} (m : List (String × α)) (k : String) (v : α) :
    lookupStr (insertStr m k v) k = some v := by
  induction m with
  | nil => simp [insertStr, lookupStr]
  | cons kv rest ih =>
    obtain ⟨k', v'⟩ := kv
    by_cases h : k' = k
    · simp [insertStr, h, lookupStr]
    · simp [insertStr, h, lookupStr, ih]

theorem lookup_insert_ne {α : Type} (m : List (String × α)) (k k' : String) (v : α)
    (h : k' ≠ k) : lookupStr (insertStr m k v) k' = lookupStr m k' := by
  have hk : ¬ (k = k') := fun hh => h hh.symm
  induction m with
  | nil => simp [insertStr, lookupStr, hk]
  | cons kv rest ih =>
    obtain ⟨k0, v0⟩ := kv
    by_cases h0 : k0 = k
    · subst h0
      simp [insertStr, lookupStr, hk]
    · by_cases h1 : k0 = k'
      · subst h1
        simp [insertStr, hk, h, lookupStr]
      · simp [insertStr, h0, lookupStr, h1, ih]

theorem mem_keys_insert {α : Type} (m : List (String × α)) (k x : String) (v : α) :
    x ∈ (insertStr m k v).map Prod.fst → x = k ∨ x ∈ m.map Prod.fst := by
  induction m with
  | nil => intro h; simpa [insertStr] using h
  | cons kv rest ih =>
    obtain ⟨k0, v0⟩ := kv
    intro h
    by_cases h0 : k0 = k
    · subst h0
      rw [insertStr, if_pos rfl, List.map_cons] at h
      rcases List.mem_cons.mp h with h | h
      · exact .inl h
      · exact .inr (by rw [List.map_cons]; exact List.mem_cons_of_mem _ h)
    · rw [insertStr, if_neg h0, List.map_cons] at h
      rcases List.mem_cons.mp h with h | h
      · subst h
        exact .inr (by rw [List.map_cons]; exact List.mem_cons_self _ _)
      · rcases ih h with h | h
        · exact .inl h
        · exact .inr (by rw [List.map_cons]; exact List.mem_cons_of_mem _ h)

theorem nodup_keys_insert {α : Type} (m : List (String × α)) (k : String) (v : α)
    (h : (m.map Prod.fst).Nodup) : ((insertStr m k v).map Prod.fst).Nodup := by
  induction m with
  | nil => simp [insertStr]
  | cons kv rest ih =>
    obtain ⟨k0, v0⟩ := kv
    rw [List.map_cons, List.nodup_cons] at h
    by_cases h0 : k0 = k
    · subst h0
      rw [insertStr, if_pos rfl, List.map_cons, List.nodup_cons]
      exact ⟨h.1, h.2⟩
    · rw [insertStr, if_neg h0, List.map_cons, List.nodup_cons]
      refine ⟨?_, ih h.2⟩
      intro hmem
      rcases mem_keys_insert rest k k0 v hmem with h2 | h2
      · exact h0 h2
      · exact h.1 h2

theorem lookup_map_snd {α β : Type} (f : α → β) (m : List (String × α)) (k : String) :
    lookupStr (m.map (fun nr => (nr.1, f nr.2))) k = (lookupStr m k).map f := by
  induction m with
  | nil => simp [lookupStr]
  | cons kv rest ih =>
    obtain ⟨k0, v0⟩ := kv
    by_cases h : k0 = k
    · simp [lookupStr, h]
    · simp [lookupStr, h, ih]

/- ### Helper lemmas about the assembler -/

theorem addRouter_Services (c : DynamicConfig) (name : String) (rc : RouterConfig)
    (src : String) : (c.AddRouterWithSource name rc src).Services = c.Services := by
  rcases hh : lookupStr c.routerSources name with _ | ex
  · simp [DynamicConfig.AddRouterWithSource, hh]
  · simp only [DynamicConfig.AddRouterWithSource, hh]
    split <;> rfl

theorem addRouter_Middlewares (c : DynamicConfig) (name : String) (rc : RouterConfig)
    (src : String) : (c.AddRouterWithSource name rc src).Middlewares = c.Middlewares := by
  rcases hh : lookupStr c.routerSources name with _ | ex
  · simp [DynamicConfig.AddRouterWithSource, hh]
  · simp only [DynamicConfig.AddRouterWithSource, hh]
    split <;> rfl

theorem addRouter_routers_ne (c : DynamicConfig) (name n : String) (rc : RouterConfig)
    (src : String) (h : n ≠ name) :
    lookupStr (c.AddRouterWithSource name rc src).Routers n = lookupStr c.Routers n := by
  rcases hh : lookupStr c.routerSources name with _ | ex
  · simp only [DynamicConfig.AddRouterWithSource, hh]
    exact lookup_insert_ne _ _ _ _ h
  · simp only [DynamicConfig.AddRouterWithSource, hh]
    split
    · rfl
    · exact lookup_insert_ne _ _ _ _ h

theorem addRouter_fresh (c : DynamicConfig) (name : String) (rc : RouterConfig)
    (src : String) (h : lookupStr c.routerSources name = none) :
    c.AddRouterWithSource name rc src =
      { c with Routers := insertStr c.Routers name rc,
               routerSources := insertStr c.routerSources name src } := by
  simp only [DynamicConfig.AddRouterWithSource, h]

theorem foldl_addRouter_Services (src : String) (f : String × RouterConfig → RouterConfig)
    (rcs : List (String × RouterConfig)) :
    ∀ (c : DynamicConfig),
    (rcs.foldl (fun cfg nr => cfg.AddRouterWithSource nr.1 (f nr) src) c).Services
      = c.Services := by
  induction rcs with
  | nil => intro c; rfl
  | cons a l ih => intro c; rw [List.foldl_cons, ih, addRouter_Services]

theorem foldl_addRouter_Middlewares (src : String) (f : String × RouterConfig → RouterConfig)
    (rcs : List (String × RouterConfig)) :
    ∀ (c : DynamicConfig),
    (rcs.foldl (fun cfg nr => cfg.AddRouterWithSource nr.1 (f nr) src) c).Middlewares
      = c.Middlewares := by
  induction rcs with
  | nil => intro c; rfl
  | cons a l ih => intro c; rw [List.foldl_cons, ih, addRouter_Middlewares]

theorem foldl_addRouter_not_mem (src : String) (f : String × RouterConfig → RouterConfig)
    (rcs : List (String × RouterConfig)) :
    ∀ (c : DynamicConfig) (k : String), k ∉ rcs.map Prod.fst →
    lookupStr ((rcs.foldl (fun cfg nr => cfg.AddRouterWithSource nr.1 (f nr) src) c)).Routers k
      = lookupStr c.Routers k := by
  induction rcs with
  | nil => intro c k _; rfl
  | cons a l ih =>
    intro c k hk
    rw [List.map_cons] at hk
    have h1 : k ∉ l.map Prod.fst := fun hm => hk (List.mem_cons_of_mem _ hm)
    have h2 : k ≠ a.1 := fun he => hk (by rw [he]; exact List.mem_cons_self _ _)
    rw [List.foldl_cons, ih _ _ h1, addRouter_routers_ne _ _ _ _ _ h2]

theorem foldl_addRouter_lookup (src : String) (f : String × RouterConfig → RouterConfig)
    (rcs : List (String × RouterConfig)) :
    ∀ (c : DynamicConfig) (nm : String) (rc : RouterConfig),
    (rcs.map Prod.fst).Nodup →
    (∀ n, n ∈ rcs.map Prod.fst → lookupStr c.routerSources n = none) →
    lookupStr rcs nm = some rc →
    lookupStr ((rcs.foldl (fun cfg nr => cfg.AddRouterWithSource nr.1 (f nr) src) c)).Routers nm
      = some (f (nm, rc)) := by
  induction rcs with
  | nil => intro c nm rc _ _ hlook; simp [lookupStr] at hlook
  | cons a l ih =>
    obtain ⟨k, v⟩ := a
    intro c nm rc hnodup hsrc hlook
    rw [List.map_cons, List.nodup_cons] at hnodup
    have hkfresh : lookupStr c.routerSources k = none :=
      hsrc k (by rw [List.map_cons]; exact List.mem_cons_self _ _)
    rw [List.foldl_cons, addRouter_fresh _ _ _ _ hkfresh]
    rw [lookupStr] at hlook
    by_cases hk : k = nm
    · subst hk
      rw [if_pos rfl] at hlook
      obtain rfl : v = rc := by injection hlook
      rw [foldl_addRouter_not_mem _ _ _ _ _ hnodup.1]
      exact lookup_insert_self _ _ _
    · rw [if_neg hk] at hlook
      refine ih _ _ _ hnodup.2 ?_ hlook
      intro n hn
      have hnk : n ≠ k := fun he => hnodup.1 (he ▸ hn)
      show lookupStr (insertStr c.routerSources k src) n = none
      rw [lookup_insert_ne _ _ _ _ hnk]
      exact hsrc n (by rw [List.map_cons]; exact List.mem_cons_of_mem _ hn)

theorem keys_map_snd {α β : Type} (f : α → β) :
    ∀ (m : List (String × α)),
    (m.map (fun nr => (nr.1, f nr.2))).map Prod.fst = m.map Prod.fst := by
  intro m
  induction m with
  | nil => rfl
  | cons a l ih => simp [ih]

theorem processLabel_keys_nodup (rs : List (String × RouterConfig)) (key value : String)
    (h : (rs.map Prod.fst).Nodup) : ((processLabel rs key value).map Prod.fst).Nodup := by
  unfold processLabel
  dsimp only
  split
  · exact h
  · split
    · exact h
    · apply nodup_keys_insert
      split
      · exact nodup_keys_insert _ _ _ h
      · exact h

theorem foldl_processLabel_keys_nodup (labels : List (String × String)) :
    ∀ (rs : List (String × RouterConfig)), (rs.map Prod.fst).Nodup →
    ((labels.foldl (fun rs kv => processLabel rs kv.1 kv.2) rs).map Prod.fst).Nodup := by
  induction labels with
  | nil => intro rs h; exact h
  | cons a l ih =>
    intro rs h
    rw [List.foldl_cons]
    exact ih _ (processLabel_keys_nodup _ _ _ h)

theorem extract_keys_nodup (labels : List (String × String)) (sn : String) :
    ((extractRouterConfigs labels sn).map Prod.fst).Nodup := by
  unfold extractRouterConfigs
  rw [keys_map_snd]
  exact foldl_processLabel_keys_nodup _ _ (by simp)

theorem fillServiceNames_keys (rcs : List (String × RouterConfig)) (name : String) :
    (fillServiceNames rcs name).map Prod.fst = rcs.map Prod.fst := by
  unfold fillServiceNames
  induction rcs with
  | nil => rfl
  | cons a l ih =>
    rw [List.map_cons, List.map_cons, ih]
    split <;> rfl

/- ### Claim C2: route-ownership conflict resolution -/

/-- C2: for every route name R, AddRouterWithSource keeps the existing owner
    exactly when the existing owner is dedicated to R and the new claimant
    is not; in every other case the new claimant wins.  Dedicated means the
    backend name, after stripping the environment suffixes, equals R up to
    hyphen removal.  Consequently, for two backends of which exactly one is
    dedicated to R, the dedicated one owns R in either processing order. -/
theorem C2_conflict_resolution
    (R src1 src2 b1 b2 ex1 ex2 : String) (c1 c2 c3 : DynamicConfig)
    (cfgKeep cfgNew cfgD cfgG : RouterConfig)
    (h1 : lookupStr c1.routerSources R = some ex1)
    (h2 : isDedicatedService R ex1 = true)
    (h3 : isDedicatedService R src1 = false)
    (h4 : lookupStr c2.routerSources R = some ex2)
    (h5 : (isDedicatedService R ex2 && !isDedicatedService R src2) = false)
    (h6 : lookupStr c3.routerSources R = none)
    (h7 : isDedicatedService R b1 = true)
    (h8 : isDedicatedService R b2 = false) :
    (∀ s, isDedicatedService R s = true ↔
      (stripEnvSuffixes s = R ∨
        strReplaceAll (stripEnvSuffixes s) "-" "" = strReplaceAll R "-" "")) ∧
    c1.AddRouterWithSource R cfgKeep src1 = c1 ∧
    lookupStr (c2.AddRouterWithSource R cfgNew src2).Routers R = some cfgNew ∧
    lookupStr (c2.AddRouterWithSource R cfgNew src2).routerSources R = some src2 ∧
    lookupStr ((c3.AddRouterWithSource R cfgD b1).AddRouterWithSource R cfgG b2).Routers R
      = some cfgD ∧
    lookupStr ((c3.AddRouterWithSource R cfgG b2).AddRouterWithSource R cfgD b1).Routers R
      = some cfgD := by
  refine ⟨?_, ?_, ?_, ?_, ?_, ?_⟩
  · intro s
    by_cases hEq : stripEnvSuffixes s = R <;> simp [isDedicatedService, hEq]
  · simp only [DynamicConfig.AddRouterWithSource, h1, h2, h3]
    simp
  · simp only [DynamicConfig.AddRouterWithSource, h4, h5]
    simp [lookup_insert_self]
  · simp only [DynamicConfig.AddRouterWithSource, h4, h5]
    simp [lookup_insert_self]
  · rw [addRouter_fresh _ _ _ _ h6]
    have hsrc : lookupStr (insertStr c3.routerSources R b1) R = some b1 := lookup_insert_self _ _ _
    simp only [DynamicConfig.AddRouterWithSource, hsrc, h7, h8]
    simp [lookup_insert_self]
  · rw [addRouter_fresh _ _ _ _ h6]
    have hsrc : lookupStr (insertStr c3.routerSources R b2) R = some b2 := lookup_insert_self _ _ _
    simp only [DynamicConfig.AddRouterWithSource, hsrc, h8]
    simp [lookup_insert_self]

/-- Witness for C2 at the spec scenario: route widget-detail, dedicated
    backend widget-detail-stg, generic backend catalog-svc. -/
theorem C2_conflict_resolution_witness :
    (∀ s, isDedicatedService "widget-detail" s = true ↔
      (stripEnvSuffixes s = "widget-detail" ∨
        strReplaceAll (stripEnvSuffixes s) "-" ""
          = strReplaceAll "widget-detail" "-" "")) ∧
    DynamicConfig.AddRouterWithSource
        { routerSources := [("widget-detail", "widget-detail-stg")] }
        "widget-detail" { Rule := "keep" } "catalog-svc"
      = { routerSources := [("widget-detail", "widget-detail-stg")] } ∧
    lookupStr (DynamicConfig.AddRouterWithSource
        { routerSources := [("widget-detail", "catalog-svc")] }
        "widget-detail" { Rule := "new" } "widget-detail-stg").Routers "widget-detail"
      = some { Rule := "new" } ∧
    lookupStr (DynamicConfig.AddRouterWithSource
        { routerSources := [("widget-detail", "catalog-svc")] }
        "widget-detail" { Rule := "new" } "widget-detail-stg").routerSources "widget-detail"
      = some "widget-detail-stg" ∧
    lookupStr ((DynamicConfig.AddRouterWithSource {} "widget-detail"
        { Rule := "ded" } "widget-detail-stg").AddRouterWithSource "widget-detail"
        { Rule := "gen" } "catalog-svc").Routers "widget-detail"
      = some { Rule := "ded" } ∧
    lookupStr ((DynamicConfig.AddRouterWithSource {} "widget-detail"
        { Rule := "gen" } "catalog-svc").AddRouterWithSource "widget-detail"
        { Rule := "ded" } "widget-detail-stg").Routers "widget-detail"
      = some { Rule := "ded" } :=
  C2_conflict_resolution "widget-detail" "catalog-svc" "widget-detail-stg"
    "widget-detail-stg" "catalog-svc" "widget-detail-stg" "catalog-svc"
    { routerSources := [("widget-detail", "widget-detail-stg")] }
    { routerSources := [("widget-detail", "catalog-svc")] } {}
    { Rule := "keep" } { Rule := "new" } { Rule := "ded" } { Rule := "gen" }
    (by decide) (by decide) (by decide) (by decide) (by decide) (by decide)
    (by decide) (by decide)

/- ### Claim C3: bounded single-slot handoff with 60-second timeout -/

theorem pluginAwait_ok_inv (a : Option (Nat × DynamicConfig)) (cfg : DynamicConfig)
    (h : pluginAwaitConfig a = .ok cfg) :
    ∃ t, a = some (t, cfg) ∧ t < handoffTimeoutSeconds := by
  rcases a with _ | ⟨t, c⟩
  · simp [pluginAwaitConfig] at h
  · by_cases ht : t < handoffTimeoutSeconds
    · refine ⟨t, ?_, ht⟩
      simp [pluginAwaitConfig, ht] at h
      rw [h]
    · simp [pluginAwaitConfig, ht] at h

theorem pluginFold_mem (arrivals : List (Option (Nat × DynamicConfig))) :
    ∀ (acc : List DynamicConfig) (cfg : DynamicConfig),
    cfg ∈ arrivals.foldl
      (fun published a =>
        match pluginAwaitConfig a with
        | .ok cfg => published ++ [cfg]
        | .error _ => published)
      acc →
    cfg ∈ acc ∨ ∃ t, some (t, cfg) ∈ arrivals ∧ t < handoffTimeoutSeconds := by
  induction arrivals with
  | nil => intro acc cfg h; exact .inl h
  | cons a l ih =>
    intro acc cfg h
    rw [List.foldl_cons] at h
    rcases ih _ _ h with h1 | ⟨t, hmem, ht⟩
    · rcases he : pluginAwaitConfig a with e | c
      · simp only [he] at h1
        exact .inl h1
      · simp only [he] at h1
        rcases List.mem_append.mp h1 with h2 | h2
        · exact .inl h2
        · have hc : cfg = c := by simpa using h2
          subst hc
          rcases pluginAwait_ok_inv a cfg he with ⟨t, ha, ht⟩
          exact .inr ⟨t, by rw [ha]; exact List.mem_cons_self _ _, ht⟩
    · exact .inr ⟨t, List.mem_cons_of_mem _ hmem, ht⟩

/-- C3: the finished configuration is handed to the consumer over a bounded
    single-slot channel (capacity 1); an arrival not consumed within the
    60-second wait makes the cycle fail with the timeout error, the failed
    tick publishes nothing and the loop proceeds to the next tick, and every
    published configuration is a whole configuration delivered within the
    bound — no incomplete state is ever published. -/
theorem C3_handoff_bounded
    (t t' : Nat) (cfg : DynamicConfig) (a : Option (Nat × DynamicConfig)) (e : String)
    (rest arrivals : List (Option (Nat × DynamicConfig)))
    (hlate : handoffTimeoutSeconds ≤ t)
    (hin : t' < handoffTimeoutSeconds)
    (herr : pluginAwaitConfig a = .error e) :
    internalConfigChanCapacity = 1 ∧
    pluginAwaitConfig none = .error "timeout waiting for configuration" ∧
    pluginAwaitConfig (some (t, cfg)) = .error "timeout waiting for configuration" ∧
    pluginAwaitConfig (some (t', cfg)) = .ok cfg ∧
    pluginPollLoop (a :: rest) = pluginPollLoop rest ∧
    (∀ cfg2, cfg2 ∈ pluginPollLoop arrivals →
      ∃ t2, some (t2, cfg2) ∈ arrivals ∧ t2 < handoffTimeoutSeconds) := by
  refine ⟨rfl, rfl, ?_, ?_, ?_, ?_⟩
  · simp [pluginAwaitConfig, Nat.not_lt.mpr hlate]
  · simp [pluginAwaitConfig, hin]
  · unfold pluginPollLoop
    rw [List.foldl_cons]
    simp only [herr]
  · intro cfg2 hmem
    unfold pluginPollLoop at hmem
    rcases pluginFold_mem arrivals [] cfg2 hmem with h | h
    · simp at h
    · exact h

/-- Witness for C3: a late arrival at 60s times out, an arrival at 3s is
    delivered, and the failed tick publishes nothing. -/
theorem C3_handoff_bounded_witness :
    internalConfigChanCapacity = 1 ∧
    pluginAwaitConfig none = .error "timeout waiting for configuration" ∧
    pluginAwaitConfig (some (60, NewDynamicConfig))
      = .error "timeout waiting for configuration" ∧
    pluginAwaitConfig (some (3, NewDynamicConfig)) = .ok NewDynamicConfig ∧
    pluginPollLoop [none, some (3, NewDynamicConfig)]
      = pluginPollLoop [some (3, NewDynamicConfig)] ∧
    (∀ cfg2, cfg2 ∈ pluginPollLoop [none, some (3, NewDynamicConfig)] →
      ∃ t2, some (t2, cfg2) ∈ ([none, some (3, NewDynamicConfig)] :
          List (Option (Nat × DynamicConfig))) ∧ t2 < handoffTimeoutSeconds) :=
  C3_handoff_bounded 60 3 NewDynamicConfig none "timeout waiting for configuration"
    [some (3, NewDynamicConfig)] [none, some (3, NewDynamicConfig)]
    (by decide) (by decide) rfl

/- ### Claim C4: entry points are never empty -/

theorem ensureEntryPoints_ne_nil (r : RouterConfig) :
    (ensureEntryPoints r).EntryPoints ≠ [] := by
  unfold ensureEntryPoints
  split
  · simp
  · next h =>
    cases hE : r.EntryPoints with
    | nil => rw [hE] at h; simp at h
    | cons a l => simp [hE]

/-- C4: every router produced by the label parser has a nonempty entry-point
    list, and the parser substitutes the default list web whenever
    comma-splitting and trimming the entrypoints label value yields an
    empty list. -/
theorem C4_entrypoints_nonempty
    (labels : List (String × String)) (sn name : String) (rc : RouterConfig) (v : String)
    (h : lookupStr (extractRouterConfigs labels sn) name = some rc) :
    rc.EntryPoints ≠ [] ∧
    ((strSplit v ",").map strTrim = [] → parseEntryPoints v = ["web"]) := by
  constructor
  · unfold extractRouterConfigs at h
    rw [lookup_map_snd] at h
    rcases ho : lookupStr
        (labels.foldl (fun rs kv => processLabel rs kv.1 kv.2) []) name with _ | r0
    · rw [ho] at h; simp at h
    · rw [ho] at h
      have h' : some (ensureEntryPoints r0) = some rc := h
      obtain rfl : ensureEntryPoints r0 = rc := by injection h'
      exact ensureEntryPoints_ne_nil r0
  · intro h2
    unfold parseEntryPoints
    rw [h2]
    rfl

/-- Witness for C4 on a concrete parsed route. -/
theorem C4_entrypoints_nonempty_witness :
    ({ Rule := "Host(`a`)", Service := "", Priority := 200,
       EntryPoints := ["web"], Middlewares := [] } : RouterConfig).EntryPoints ≠ [] ∧
    ((strSplit "web,internal" ",").map strTrim = []
      → parseEntryPoints "web,internal" = ["web"]) :=
  C4_entrypoints_nonempty [("traefik_http_routers_widget_rule", "Host(`a`)")] "svc"
    "widget"
    { Rule := "Host(`a`)", Service := "", Priority := 200,
      EntryPoints := ["web"], Middlewares := [] }
    "web,internal" (by decide)

/- ### Claim C7: middlewares label parsing -/

theorem parseMiddlewares_spec (l : List String) :
    ∀ acc : List String,
    l.foldl
      (fun acc p =>
        let p := strTrim p
        if p ≠ "" then acc ++ [rewriteFileSuffix p] else acc)
      acc
    = acc ++ ((l.map strTrim).filter (fun p => p ≠ "")).map rewriteFileSuffix := by
  induction l with
  | nil => intro acc; simp
  | cons a l ih =>
    intro acc
    rw [List.foldl_cons]
    by_cases h : strTrim a = ""
    · simp only [h]
      rw [ih]
      simp [h]
    · simp only [h]
      rw [ih]
      simp [h]

/-- C7: the middlewares label value is split on the first matching separator
    in the priority order double-underscore, semicolon, comma; each token is
    trimmed, empty tokens are dropped, and a token ending in -file is
    rewritten to end in @file; a-sep-b-sep-c under double-underscore yields
    the three tokens and x-file becomes x@file. -/
theorem C7_middlewares_parsing
    (v v1 v2 v3 : String)
    (h1 : strContains v1 "__" = true)
    (h2 : strContains v2 "__" = false) (h3 : strContains v2 ";" = true)
    (h4 : strContains v3 "__" = false) (h5 : strContains v3 ";" = false) :
    parseMiddlewares [] v
      = (((chooseSeparatorSplit v).map strTrim).filter (fun p => p ≠ "")).map
          rewriteFileSuffix ∧
    chooseSeparatorSplit v1 = strSplit v1 "__" ∧
    chooseSeparatorSplit v2 = strSplit v2 ";" ∧
    chooseSeparatorSplit v3 = strSplit v3 "," ∧
    parseMiddlewares [] "a__b__c" = ["a", "b", "c"] ∧
    parseMiddlewares [] "x-file" = ["x@file"] ∧
    rewriteFileSuffix "x-file" = "x@file" := by
  refine ⟨?_, ?_, ?_, ?_, by decide, by decide, by decide⟩
  · unfold parseMiddlewares
    rw [parseMiddlewares_spec]
    simp
  · unfold chooseSeparatorSplit
    rw [h1]
    rfl
  · unfold chooseSeparatorSplit
    rw [h2, h3]
    rfl
  · unfold chooseSeparatorSplit
    rw [h4, h5]
    rfl

/-- Witness for C7 at concrete label values for each separator. -/
theorem C7_middlewares_parsing_witness :
    parseMiddlewares [] " m1 , ,m2-file "
      = (((chooseSeparatorSplit " m1 , ,m2-file ").map strTrim).filter
          (fun p => p ≠ "")).map rewriteFileSuffix ∧
    chooseSeparatorSplit "a__b" = strSplit "a__b" "__" ∧
    chooseSeparatorSplit "a;b" = strSplit "a;b" ";" ∧
    chooseSeparatorSplit "a,b" = strSplit "a,b" "," ∧
    parseMiddlewares [] "a__b__c" = ["a", "b", "c"] ∧
    parseMiddlewares [] "x-file" = ["x@file"] ∧
    rewriteFileSuffix "x-file" = "x@file" :=
  C7_middlewares_parsing " m1 , ,m2-file " "a__b" "a;b" "a,b"
    (by decide) (by decide) (by decide) (by decide) (by decide)

/- ### Claim C1: token cache storage and cache hits -/

/-- Oracle for the C1 counterexample: the metadata server is absent and the
    development-mode ADC fallback produces a token. -/
def c1FallbackOracle : Oracles :=
  { metadataHTTP := fun _ =>
      .netError "dial tcp: lookup metadata.google.internal: no such host",
    adc := fun _ => .token "eyJdev" }

/-- C1 counterexample: on the first-call development-mode fallback
    (token_manager.go:74) GetToken succeeds with a fetched token yet stores
    nothing, and the immediately following call for the same audience
    performs another fetch instead of a cache hit — refuting the claim that
    after every successful fetch the credential is stored and any later call
    before the expiry is served from the cache without a second fetch. -/
theorem C1_counterexample :
    (GetToken c1FallbackOracle 0 (NewTokenManager true) "https://svc-a").result
      = .ok "eyJdev" ∧
    lookupStr (GetToken c1FallbackOracle 0 (NewTokenManager true)
      "https://svc-a").state.cache "https://svc-a" = none ∧
    (GetToken c1FallbackOracle 0
      (GetToken c1FallbackOracle 0 (NewTokenManager true) "https://svc-a").state
      "https://svc-a").fetchCount = 1 :=
  ⟨rfl, rfl, rfl⟩

/-- C1 (amended): after a successful fetch through the metadata server the
    credential is stored with expiry fetch time plus 55 minutes, and any
    later GetToken call strictly before that expiry returns the same cached
    token with no state change and no fetch.  (The first-call
    development-mode ADC fallback, by contrast, returns its token without
    storing it — see the counterexample.) -/
theorem C1_amended_cache
    (o : Oracles) (now t2 : Nat) (tm : TokenManagerState) (aud raw : String)
    (hmiss : lookupStr tm.cache aud = none)
    (hpath : (!tm.metadataChecked || tm.hasMetadata) = true)
    (hbody : o.metadataHTTP aud = .body raw)
    (hjwt : strStartsWith (strTrim raw) "eyJ" = true)
    (ht2 : t2 < now + 55 * 60) :
    (GetToken o now tm aud).result = .ok (strTrim raw) ∧
    lookupStr (GetToken o now tm aud).state.cache aud
      = some { Token := strTrim raw, ExpiresAt := now + 55 * 60 } ∧
    GetToken o t2 (GetToken o now tm aud).state aud
      = { result := .ok (strTrim raw), state := (GetToken o now tm aud).state,
          fetchCount := 0 } := by
  have hmain : GetToken o now tm aud =
      { result := .ok (strTrim raw),
        state := cacheStore { tm with metadataChecked := true, hasMetadata := true }
          aud (strTrim raw) now,
        fetchCount := 1 } := by
    simp [GetToken, getTokenFetch, fetchFromMetadata, hmiss, hpath, hbody, hjwt]
  refine ⟨by rw [hmain], ?_, ?_⟩
  · rw [hmain]
    simp only [cacheStore]
    exact lookup_insert_self _ _ _
  · rw [hmain]
    simp [GetToken, cacheStore, lookup_insert_self, ht2]

/-- Witness for C1 (amended): a fetch at time 0 stores expiry 3300 seconds
    (55 minutes) and a call at 3299 seconds (54m59s) is a cache hit. -/
theorem C1_amended_cache_witness :
    (GetToken { metadataHTTP := fun _ => .body "eyJtok", adc := fun _ => .token "" }
      0 (NewTokenManager false) "https://svc").result = .ok (strTrim "eyJtok") ∧
    lookupStr (GetToken
        { metadataHTTP := fun _ => .body "eyJtok", adc := fun _ => .token "" }
        0 (NewTokenManager false) "https://svc").state.cache "https://svc"
      = some { Token := strTrim "eyJtok", ExpiresAt := 0 + 55 * 60 } ∧
    GetToken { metadataHTTP := fun _ => .body "eyJtok", adc := fun _ => .token "" }
      3299 (GetToken
        { metadataHTTP := fun _ => .body "eyJtok", adc := fun _ => .token "" }
        0 (NewTokenManager false) "https://svc").state "https://svc"
      = { result := .ok (strTrim "eyJtok"),
          state := (GetToken
            { metadataHTTP := fun _ => .body "eyJtok", adc := fun _ => .token "" }
            0 (NewTokenManager false) "https://svc").state,
          fetchCount := 0 } :=
  C1_amended_cache
    { metadataHTTP := fun _ => .body "eyJtok", adc := fun _ => .token "" }
    0 3299 (NewTokenManager false) "https://svc" "eyJtok"
    rfl rfl rfl (by decide) (by decide)

/- ### Claim C5: token-format validation on the fetch paths -/

/-- Oracle for the C5 counterexample: the ADC exchange returns a non-empty
    token that does not carry the signed-token prefix. -/
def c5AccessTokenOracle : Oracles :=
  { metadataHTTP := fun _ => .netError "unused", adc := fun _ => .token "ya29devtoken" }

/-- C5 counterexample: on the ADC fetch path (metadata server already known
    unavailable, development mode on), a token without the eyJ prefix is
    accepted, returned, and cached — refuting the claim that every fetch
    path validates the prefix and treats its absence as a fetch failure. -/
theorem C5_counterexample :
    strStartsWith "ya29devtoken" "eyJ" = false ∧
    (GetToken c5AccessTokenOracle 0
      { cache := [], devMode := true, metadataChecked := true, hasMetadata := false }
      "https://svc").result = .ok "ya29devtoken" ∧
    lookupStr (GetToken c5AccessTokenOracle 0
      { cache := [], devMode := true, metadataChecked := true, hasMetadata := false }
      "https://svc").state.cache "https://svc"
      = some { Token := "ya29devtoken", ExpiresAt := 3300 } :=
  ⟨rfl, rfl, rfl⟩

/-- C5 (amended): the metadata fetch path validates the eyJ signed-token
    prefix — a trimmed body without it makes GetToken fail and leaves the
    state unchanged — while the ADC fetch path only rejects empty tokens, so
    a non-empty token without the prefix is accepted and cached there. -/
theorem C5_amended_validation
    (o : Oracles) (now : Nat) (tm1 tm2 : TokenManagerState) (aud1 aud2 raw t : String)
    (hmiss1 : lookupStr tm1.cache aud1 = none)
    (hpath1 : (!tm1.metadataChecked || tm1.hasMetadata) = true)
    (hbody : o.metadataHTTP aud1 = .body raw)
    (hbad : strStartsWith (strTrim raw) "eyJ" = false)
    (hmiss2 : lookupStr tm2.cache aud2 = none)
    (hchk : tm2.metadataChecked = true) (hhm : tm2.hasMetadata = false)
    (hdev : tm2.devMode = true)
    (hadc : o.adc aud2 = .token t) (hne : t ≠ "") :
    (GetToken o now tm1 aud1).result
      = .error "token does not look valid (does not start with eyJ)" ∧
    (GetToken o now tm1 aud1).state = tm1 ∧
    (GetToken o now tm2 aud2).result = .ok t ∧
    lookupStr (GetToken o now tm2 aud2).state.cache aud2
      = some { Token := t, ExpiresAt := now + 55 * 60 } := by
  have hc1 : strContains "token does not look valid (does not start with eyJ)"
      "no such host" = false := by decide
  have hc2 : strContains "token does not look valid (does not start with eyJ)"
      "lookup metadata.google.internal" = false := by decide
  refine ⟨?_, ?_, ?_, ?_⟩ <;>
    simp [GetToken, getTokenFetch, fetchFromMetadata, fetchFromADC, cacheStore,
      hmiss1, hpath1, hbody, hbad, hmiss2, hchk, hhm, hdev, hadc, hne, hc1, hc2,
      lookup_insert_self]

/-- Witness for C5 (amended) at concrete audiences for both fetch paths. -/
theorem C5_amended_validation_witness :
    (GetToken
      { metadataHTTP := fun _ => .body "not-a-jwt", adc := fun _ => .token "ya29tok" }
      0 (NewTokenManager false) "https://a").result
      = .error "token does not look valid (does not start with eyJ)" ∧
    (GetToken
      { metadataHTTP := fun _ => .body "not-a-jwt", adc := fun _ => .token "ya29tok" }
      0 (NewTokenManager false) "https://a").state = NewTokenManager false ∧
    (GetToken
      { metadataHTTP := fun _ => .body "not-a-jwt", adc := fun _ => .token "ya29tok" }
      0 { cache := [], devMode := true, metadataChecked := true, hasMetadata := false }
      "https://b").result = .ok "ya29tok" ∧
    lookupStr (GetToken
      { metadataHTTP := fun _ => .body "not-a-jwt", adc := fun _ => .token "ya29tok" }
      0 { cache := [], devMode := true, metadataChecked := true, hasMetadata := false }
      "https://b").state.cache "https://b"
      = some { Token := "ya29tok", ExpiresAt := 0 + 55 * 60 } :=
  C5_amended_validation
    { metadataHTTP := fun _ => .body "not-a-jwt", adc := fun _ => .token "ya29tok" }
    0 (NewTokenManager false)
    { cache := [], devMode := true, metadataChecked := true, hasMetadata := false }
    "https://a" "https://b" "not-a-jwt" "ya29tok"
    rfl rfl rfl (by decide) rfl rfl rfl rfl rfl (by decide)

theorem addService_Routers (c : DynamicConfig) (n : String) (sc : ServiceConfig) :
    (c.AddService n sc).Routers = c.Routers := rfl

theorem addService_Middlewares (c : DynamicConfig) (n : String) (sc : ServiceConfig) :
    (c.AddService n sc).Middlewares = c.Middlewares := rfl

theorem addAuth_Services (c : DynamicConfig) (n t : String) :
    (c.AddAuthMiddleware n t).Services = c.Services := by
  unfold DynamicConfig.AddAuthMiddleware
  split <;> rfl

theorem addAuth_Routers (c : DynamicConfig) (n t : String) :
    (c.AddAuthMiddleware n t).Routers = c.Routers := by
  unfold DynamicConfig.AddAuthMiddleware
  split <;> rfl

theorem addAuth_routerSources (c : DynamicConfig) (n t : String) :
    (c.AddAuthMiddleware n t).routerSources = c.routerSources := by
  unfold DynamicConfig.AddAuthMiddleware
  split <;> rfl

/-- Proof artifact: the pair produced by a successful processService call,
    written as a composition of the embedded stages. -/
def processServiceResult (o : Oracles) (now : Nat) (env : ProcEnv) (svc : CloudRunService)
    (config : DynamicConfig) (tm : TokenManagerState) : DynamicConfig × TokenManagerState :=
  let routerConfigs := extractRouterConfigs svc.Labels svc.Name
  let serviceNameFromLabel := resolveServiceName routerConfigs svc.Name
  let filled := fillServiceNames routerConfigs serviceNameFromLabel
  let outcome := computeServiceToken o now tm svc.URL
  let authMiddlewareName := serviceNameFromLabel ++ "-auth"
  let config1 :=
    if outcome.serviceToken ≠ "" then
      config.AddAuthMiddleware authMiddlewareName outcome.serviceToken
    else config
  let skipAuthCheck := env.skipAuthCheckEnv || !env.userAuthEnabled
  let config2 := filled.foldl
    (fun cfg nr =>
      cfg.AddRouterWithSource nr.1
        (transformRouter skipAuthCheck (outcome.serviceToken ≠ "") authMiddlewareName nr.1 nr.2)
        svc.Name)
    config1
  (config2.AddService serviceNameFromLabel
      { LoadBalancer := { Servers := [{ URL := svc.URL }], PassHostHeader := false } },
   outcome.state)

theorem processService_ok_inv (o : Oracles) (now : Nat) (env : ProcEnv)
    (svc : CloudRunService) (cfg0 cfg' : DynamicConfig) (tm tm' : TokenManagerState)
    (h : processService o now env svc cfg0 tm = .ok (cfg', tm')) :
    (extractRouterConfigs svc.Labels svc.Name).isEmpty = false ∧
    (cfg', tm') = processServiceResult o now env svc cfg0 tm := by
  unfold processService at h
  dsimp only at h
  rcases hE : (extractRouterConfigs svc.Labels svc.Name).isEmpty with _ | _
  · rw [hE] at h
    simp only [Bool.false_eq_true, if_false] at h
    refine ⟨rfl, ?_⟩
    have hb := Except.ok.inj h
    rw [← hb]
    rfl
  · rw [hE] at h
    simp only [if_true] at h
    cases h

theorem addService_Services (c : DynamicConfig) (n : String) (sc : ServiceConfig) :
    (c.AddService n sc).Services = insertStr c.Services n sc := rfl

/- ### Claim C10: emitted backend entries -/

/-- C10: every successfully processed backend descriptor updates the
    backends map at exactly the resolved service name, with a load balancer
    holding exactly one target URL — the descriptor connection URL — and
    passHostHeader always false. -/
theorem C10_backend_entry
    (o : Oracles) (now : Nat) (env : ProcEnv) (svc : CloudRunService)
    (cfg0 cfg' : DynamicConfig) (tm tm' : TokenManagerState)
    (h : processService o now env svc cfg0 tm = .ok (cfg', tm')) :
    cfg'.Services = insertStr cfg0.Services
      (resolveServiceName (extractRouterConfigs svc.Labels svc.Name) svc.Name)
      { LoadBalancer := { Servers := [{ URL := svc.URL }], PassHostHeader := false } } ∧
    lookupStr cfg'.Services
      (resolveServiceName (extractRouterConfigs svc.Labels svc.Name) svc.Name)
      = some { LoadBalancer := { Servers := [{ URL := svc.URL }], PassHostHeader := false } } := by
  obtain ⟨hE, hres⟩ := processService_ok_inv o now env svc cfg0 cfg' tm tm' h
  have hc : cfg' = (processServiceResult o now env svc cfg0 tm).1 := congrArg Prod.fst hres
  have hS : cfg'.Services = insertStr cfg0.Services
      (resolveServiceName (extractRouterConfigs svc.Labels svc.Name) svc.Name)
      { LoadBalancer := { Servers := [{ URL := svc.URL }], PassHostHeader := false } } := by
    rw [hc]
    unfold processServiceResult
    dsimp only
    rw [addService_Services, foldl_addRouter_Services]
    split
    · rw [addAuth_Services]
    · rfl
  exact ⟨hS, by rw [hS]; exact lookup_insert_self _ _ _⟩

/-- Concrete inputs for the C10 witness. -/
def c10Oracle : Oracles :=
  { metadataHTTP := fun _ => .body "eyJtok", adc := fun _ => .token "" }

def c10Service : CloudRunService :=
  { Name := "svc-a", URL := "https://a.example", ProjectID := "p",
    Labels := [("traefik_http_routers_widget_rule", "Host(`a`)")] }

def c10Run : DynamicConfig × TokenManagerState :=
  (processService c10Oracle 0 {} c10Service NewDynamicConfig
    (NewTokenManager false)).toOption.getD (NewDynamicConfig, NewTokenManager false)

/-- Witness for C10 on a concrete backend descriptor. -/
theorem C10_backend_entry_witness :
    lookupStr c10Run.1.Services
      (resolveServiceName (extractRouterConfigs c10Service.Labels c10Service.Name)
        c10Service.Name)
      = some { LoadBalancer := { Servers := [{ URL := c10Service.URL }], PassHostHeader := false } } :=
  (C10_backend_entry c10Oracle 0 {} c10Service NewDynamicConfig c10Run.1
    (NewTokenManager false) c10Run.2 rfl).2

/- ### Claim C6: failed credential fetch omits the auth middleware -/

/-- C6: when the credential for a backend fails to materialize (fetch error
    or invalid token, degraded to the empty service token), processService
    emits no middleware at all for that backend — in particular no
    header-injection middleware with an empty value — while each of the
    backend's routers is still emitted, carrying its remaining middlewares
    (filter, strip-prefix and retry stages applied, no auth reference
    prepended). -/
theorem C6_failed_fetch_no_auth_mw
    (o : Oracles) (now : Nat) (env : ProcEnv) (svc : CloudRunService)
    (cfg' : DynamicConfig) (tm tm' : TokenManagerState) (nm : String) (rc : RouterConfig)
    (htok : (computeServiceToken o now tm svc.URL).serviceToken = "")
    (h : processService o now env svc NewDynamicConfig tm = .ok (cfg', tm'))
    (hlook : lookupStr (fillServiceNames (extractRouterConfigs svc.Labels svc.Name)
        (resolveServiceName (extractRouterConfigs svc.Labels svc.Name) svc.Name)) nm
      = some rc) :
    cfg'.Middlewares = [] ∧
    lookupStr cfg'.Routers nm
      = some (transformRouter (env.skipAuthCheckEnv || !env.userAuthEnabled) false
          (resolveServiceName (extractRouterConfigs svc.Labels svc.Name) svc.Name ++ "-auth")
          nm rc) := by
  obtain ⟨hE, hres⟩ := processService_ok_inv o now env svc NewDynamicConfig cfg' tm tm' h
  have hc : cfg' = (processServiceResult o now env svc NewDynamicConfig tm).1 :=
    congrArg Prod.fst hres
  constructor
  · rw [hc]
    unfold processServiceResult
    dsimp only
    rw [addService_Middlewares, foldl_addRouter_Middlewares, htok]
    simp [NewDynamicConfig]
  · have hnodup : ((fillServiceNames (extractRouterConfigs svc.Labels svc.Name)
        (resolveServiceName (extractRouterConfigs svc.Labels svc.Name) svc.Name)).map
          Prod.fst).Nodup := by
      rw [fillServiceNames_keys]
      exact extract_keys_nodup _ _
    have hsrc : ∀ n, n ∈ (fillServiceNames (extractRouterConfigs svc.Labels svc.Name)
        (resolveServiceName (extractRouterConfigs svc.Labels svc.Name) svc.Name)).map
          Prod.fst →
        lookupStr (NewDynamicConfig : DynamicConfig).routerSources n = none :=
      fun n _ => rfl
    have hfold := foldl_addRouter_lookup svc.Name
      (fun nr => transformRouter (env.skipAuthCheckEnv || !env.userAuthEnabled) false
        (resolveServiceName (extractRouterConfigs svc.Labels svc.Name) svc.Name ++ "-auth")
        nr.1 nr.2)
      (fillServiceNames (extractRouterConfigs svc.Labels svc.Name)
        (resolveServiceName (extractRouterConfigs svc.Labels svc.Name) svc.Name))
      NewDynamicConfig nm rc hnodup hsrc hlook
    rw [hc]
    unfold processServiceResult
    dsimp only
    rw [addService_Routers, htok]
    simpa using hfold

/-- Concrete inputs for the C6 witness: the metadata fetch fails with a
    transport error and no fallback applies, so no credential exists. -/
def c6Oracle : Oracles :=
  { metadataHTTP := fun _ => .netError "connection refused", adc := fun _ => .token "" }

def c6Service : CloudRunService :=
  { Name := "svc-a", URL := "https://a.example", ProjectID := "p",
    Labels := [("traefik_http_routers_widget_rule", "Host(`a`)")] }

def c6Run : DynamicConfig × TokenManagerState :=
  (processService c6Oracle 0 {} c6Service NewDynamicConfig
    (NewTokenManager false)).toOption.getD (NewDynamicConfig, NewTokenManager false)

/-- Witness for C6 on a concrete backend whose credential fetch fails. -/
theorem C6_failed_fetch_no_auth_mw_witness :
    c6Run.1.Middlewares = [] ∧
    lookupStr c6Run.1.Routers "widget"
      = some (transformRouter
          (({} : ProcEnv).skipAuthCheckEnv || !({} : ProcEnv).userAuthEnabled) false
          (resolveServiceName (extractRouterConfigs c6Service.Labels c6Service.Name)
            c6Service.Name ++ "-auth")
          "widget"
          { Rule := "Host(`a`)", Service := "svc-a", Priority := 200,
            EntryPoints := ["web"], Middlewares := [] }) :=
  C6_failed_fetch_no_auth_mw c6Oracle 0 {} c6Service c6Run.1 (NewTokenManager false)
    c6Run.2 "widget"
    { Rule := "Host(`a`)", Service := "svc-a", Priority := 200,
      EntryPoints := ["web"], Middlewares := [] }
    rfl rfl (by decide)

/- ### Claim C8: credential middleware prepended, separate header -/

/-- C8: for a backend whose credential was obtained, the auth middleware is
    emitted under the backend's dedicated name carrying the separate
    X-Serverless-Authorization request header set to the bearer token (the
    Authorization header is untouched); each route of the backend is
    emitted through the middleware pipeline with the auth reference, and
    when the reference is not already present it is prepended so that it
    is first in the route's middleware list. -/
theorem C8_auth_middleware_first
    (o : Oracles) (now : Nat) (env : ProcEnv) (svc : CloudRunService)
    (cfg' : DynamicConfig) (tm tm' : TokenManagerState) (nm : String) (rc : RouterConfig)
    (htok : (computeServiceToken o now tm svc.URL).serviceToken ≠ "")
    (h : processService o now env svc NewDynamicConfig tm = .ok (cfg', tm'))
    (hlook : lookupStr (fillServiceNames (extractRouterConfigs svc.Labels svc.Name)
        (resolveServiceName (extractRouterConfigs svc.Labels svc.Name) svc.Name)) nm
      = some rc)
    (hnot : ((injectStripPrefixMw nm rc.Rule
        (filterAuthCheck (env.skipAuthCheckEnv || !env.userAuthEnabled) rc.Middlewares)).any
          (fun mw =>
            mw == resolveServiceName (extractRouterConfigs svc.Labels svc.Name) svc.Name
                    ++ "-auth"
            || mw == resolveServiceName (extractRouterConfigs svc.Labels svc.Name) svc.Name
                    ++ "-auth" ++ "@file")) = false) :
    lookupStr cfg'.Middlewares
        (resolveServiceName (extractRouterConfigs svc.Labels svc.Name) svc.Name ++ "-auth")
      = some { Headers :=
                 some { CustomRequestHeaders :=
                          [("X-Serverless-Authorization",
                            "Bearer " ++ (computeServiceToken o now tm svc.URL).serviceToken)],
                        ForwardedHeaders := none },
               ForwardAuth := none } ∧
    lookupStr [("X-Serverless-Authorization",
        "Bearer " ++ (computeServiceToken o now tm svc.URL).serviceToken)] "Authorization"
      = none ∧
    lookupStr cfg'.Routers nm
      = some (transformRouter (env.skipAuthCheckEnv || !env.userAuthEnabled) true
          (resolveServiceName (extractRouterConfigs svc.Labels svc.Name) svc.Name ++ "-auth")
          nm rc) ∧
    (transformRouter (env.skipAuthCheckEnv || !env.userAuthEnabled) true
        (resolveServiceName (extractRouterConfigs svc.Labels svc.Name) svc.Name ++ "-auth")
        nm rc).Middlewares.head?
      = some (resolveServiceName (extractRouterConfigs svc.Labels svc.Name) svc.Name
          ++ "-auth") := by
  obtain ⟨hE, hres⟩ := processService_ok_inv o now env svc NewDynamicConfig cfg' tm tm' h
  have hc : cfg' = (processServiceResult o now env svc NewDynamicConfig tm).1 :=
    congrArg Prod.fst hres
  have hdec : decide ((computeServiceToken o now tm svc.URL).serviceToken ≠ "") = true :=
    decide_eq_true htok
  refine ⟨?_, rfl, ?_, ?_⟩
  · rw [hc]
    unfold processServiceResult
    dsimp only
    rw [addService_Middlewares, foldl_addRouter_Middlewares, if_pos htok]
    unfold DynamicConfig.AddAuthMiddleware
    rw [if_neg htok]
    dsimp only
    simp [NewDynamicConfig, insertStr, lookupStr]
  · have hnodup : ((fillServiceNames (extractRouterConfigs svc.Labels svc.Name)
        (resolveServiceName (extractRouterConfigs svc.Labels svc.Name) svc.Name)).map
          Prod.fst).Nodup := by
      rw [fillServiceNames_keys]
      exact extract_keys_nodup _ _
    have hsrc : ∀ n, n ∈ (fillServiceNames (extractRouterConfigs svc.Labels svc.Name)
        (resolveServiceName (extractRouterConfigs svc.Labels svc.Name) svc.Name)).map
          Prod.fst →
        lookupStr ((NewDynamicConfig : DynamicConfig).AddAuthMiddleware
          (resolveServiceName (extractRouterConfigs svc.Labels svc.Name) svc.Name ++ "-auth")
          (computeServiceToken o now tm svc.URL).serviceToken).routerSources n = none := by
      intro n _
      rw [addAuth_routerSources]
      rfl
    have hfold := foldl_addRouter_lookup svc.Name
      (fun nr => transformRouter (env.skipAuthCheckEnv || !env.userAuthEnabled) true
        (resolveServiceName (extractRouterConfigs svc.Labels svc.Name) svc.Name ++ "-auth")
        nr.1 nr.2)
      (fillServiceNames (extractRouterConfigs svc.Labels svc.Name)
        (resolveServiceName (extractRouterConfigs svc.Labels svc.Name) svc.Name))
      ((NewDynamicConfig : DynamicConfig).AddAuthMiddleware
        (resolveServiceName (extractRouterConfigs svc.Labels svc.Name) svc.Name ++ "-auth")
        (computeServiceToken o now tm svc.URL).serviceToken)
      nm rc hnodup hsrc hlook
    rw [hc]
    unfold processServiceResult
    dsimp only
    rw [addService_Routers, if_pos htok, hdec]
    exact hfold
  · have hstep1 : injectServiceAuthMw true
        (resolveServiceName (extractRouterConfigs svc.Labels svc.Name) svc.Name ++ "-auth")
        (injectStripPrefixMw nm rc.Rule
          (filterAuthCheck (env.skipAuthCheckEnv || !env.userAuthEnabled) rc.Middlewares))
      = (resolveServiceName (extractRouterConfigs svc.Labels svc.Name) svc.Name ++ "-auth")
        :: injectStripPrefixMw nm rc.Rule
          (filterAuthCheck (env.skipAuthCheckEnv || !env.userAuthEnabled) rc.Middlewares) := by
      unfold injectServiceAuthMw
      rw [hnot]
      rfl
    unfold transformRouter
    dsimp only
    rw [hstep1]
    unfold injectRetryMw
    split
    · rfl
    · simp

/-- Concrete inputs for the C8 witness: the metadata fetch succeeds. -/
def c8Oracle : Oracles :=
  { metadataHTTP := fun _ => .body "eyJtok2", adc := fun _ => .token "" }

def c8Service : CloudRunService :=
  { Name := "svc-b", URL := "https://b.example", ProjectID := "p",
    Labels := [("traefik_http_routers_widget_rule", "Host(`b`)")] }

def c8Run : DynamicConfig × TokenManagerState :=
  (processService c8Oracle 0 {} c8Service NewDynamicConfig
    (NewTokenManager false)).toOption.getD (NewDynamicConfig, NewTokenManager false)

/-- Witness for C8 on a concrete backend whose credential fetch succeeds. -/
theorem C8_auth_middleware_first_witness :
    lookupStr c8Run.1.Middlewares
        (resolveServiceName (extractRouterConfigs c8Service.Labels c8Service.Name)
          c8Service.Name ++ "-auth")
      = some { Headers :=
                 some { CustomRequestHeaders :=
                          [("X-Serverless-Authorization",
                            "Bearer " ++ (computeServiceToken c8Oracle 0
                              (NewTokenManager false) c8Service.URL).serviceToken)],
                        ForwardedHeaders := none },
               ForwardAuth := none } ∧
    lookupStr [("X-Serverless-Authorization",
        "Bearer " ++ (computeServiceToken c8Oracle 0 (NewTokenManager false)
          c8Service.URL).serviceToken)] "Authorization" = none ∧
    lookupStr c8Run.1.Routers "widget"
      = some (transformRouter
          (({} : ProcEnv).skipAuthCheckEnv || !({} : ProcEnv).userAuthEnabled) true
          (resolveServiceName (extractRouterConfigs c8Service.Labels c8Service.Name)
            c8Service.Name ++ "-auth")
          "widget"
          { Rule := "Host(`b`)", Service := "svc-b", Priority := 200,
            EntryPoints := ["web"], Middlewares := [] }) ∧
    (transformRouter
        (({} : ProcEnv).skipAuthCheckEnv || !({} : ProcEnv).userAuthEnabled) true
        (resolveServiceName (extractRouterConfigs c8Service.Labels c8Service.Name)
          c8Service.Name ++ "-auth")
        "widget"
        { Rule := "Host(`b`)", Service := "svc-b", Priority := 200,
          EntryPoints := ["web"], Middlewares := [] }).Middlewares.head?
      = some (resolveServiceName (extractRouterConfigs c8Service.Labels c8Service.Name)
          c8Service.Name ++ "-auth") :=
  C8_auth_middleware_first c8Oracle 0 {} c8Service c8Run.1 (NewTokenManager false)
    c8Run.2 "widget"
    { Rule := "Host(`b`)", Service := "svc-b", Priority := 200,
      EntryPoints := ["web"], Middlewares := [] }
    (by decide) rfl (by decide) (by decide)

/- ### Claim C9: idempotence of the reconciliation cycle -/

/-- Proof artifact: the trimmed token body the metadata oracle yields for an
    audience (empty when the oracle does not yield a body). -/
def metadataTokenOf (o : Oracles) (url : String) : String :=
  match o.metadataHTTP url with
  | .body raw => strTrim raw
  | _ => ""

/-- Proof artifact: the metadata fetch for this audience succeeds with a
    signed-looking token. -/
def metadataFetchGood (o : Oracles) (url : String) : Prop :=
  (∃ raw, o.metadataHTTP url = .body raw) ∧
  strStartsWith (metadataTokenOf o url) "eyJ" = true

/-- Proof artifact: token-manager states whose flags still allow the
    metadata path and whose cache entries are exactly the live metadata
    tokens.  The fresh state is good, and processing any audience with a
    good metadata fetch preserves goodness. -/
def goodState (o : Oracles) (now : Nat) (tm : TokenManagerState) : Prop :=
  (tm.metadataChecked = false ∨ tm.hasMetadata = true) ∧
  ∀ url e, lookupStr tm.cache url = some e →
    e.Token = metadataTokenOf o url ∧ now < e.ExpiresAt

theorem computeServiceToken_good (o : Oracles) (now : Nat) (tm : TokenManagerState)
    (url : String) (hg : metadataFetchGood o url) (hs : goodState o now tm) :
    (computeServiceToken o now tm url).serviceToken = metadataTokenOf o url ∧
    goodState o now (computeServiceToken o now tm url).state := by
  obtain ⟨⟨raw, hraw⟩, hjwt⟩ := hg
  have htok : metadataTokenOf o url = strTrim raw := by
    unfold metadataTokenOf
    rw [hraw]
  have hpath : (!tm.metadataChecked || tm.hasMetadata) = true := by
    rcases hs.1 with h | h <;> simp [h]
  rcases hcache : lookupStr tm.cache url with _ | e
  · have hjwt' : strStartsWith (strTrim raw) "eyJ" = true := by rw [← htok]; exact hjwt
    have hmain : GetToken o now tm url =
        { result := .ok (strTrim raw),
          state := cacheStore { tm with metadataChecked := true, hasMetadata := true }
            url (strTrim raw) now,
          fetchCount := 1 } := by
      simp [GetToken, getTokenFetch, fetchFromMetadata, hcache, hpath, hraw, hjwt']
    have hcst : computeServiceToken o now tm url =
        { serviceToken := strTrim raw,
          state := cacheStore { tm with metadataChecked := true, hasMetadata := true }
            url (strTrim raw) now,
          fetchCount := 1 } := by
      unfold computeServiceToken
      rw [hmain]
      simp [hjwt']
    rw [hcst]
    refine ⟨htok.symm, .inr rfl, ?_⟩
    intro url' e' hl
    simp only [cacheStore] at hl
    by_cases hu : url' = url
    · subst hu
      rw [lookup_insert_self] at hl
      obtain rfl : ({ Token := strTrim raw, ExpiresAt := now + 55 * 60 } : CachedToken)
          = e' := by injection hl
      refine ⟨htok.symm, ?_⟩
      show now < now + 55 * 60
      omega
    · rw [lookup_insert_ne _ _ _ _ hu] at hl
      exact hs.2 url' e' hl
  · obtain ⟨hT, hLt⟩ := hs.2 url e hcache
    have hmain : GetToken o now tm url =
        { result := .ok e.Token, state := tm, fetchCount := 0 } := by
      simp [GetToken, hcache, hLt]
    have hjwt' : strStartsWith e.Token "eyJ" = true := by rw [hT]; exact hjwt
    have hcst : computeServiceToken o now tm url =
        { serviceToken := e.Token, state := tm, fetchCount := 0 } := by
      unfold computeServiceToken
      rw [hmain]
      simp [hjwt']
    rw [hcst]
    exact ⟨hT, hs⟩

theorem processService_config_eq (o : Oracles) (now : Nat) (env : ProcEnv)
    (svc : CloudRunService) (cfg : DynamicConfig) (tmA tmB : TokenManagerState)
    (hg : metadataFetchGood o svc.URL)
    (hsA : goodState o now tmA) (hsB : goodState o now tmB) :
    (processService o now env svc cfg tmA).map Prod.fst
      = (processService o now env svc cfg tmB).map Prod.fst := by
  have hA := (computeServiceToken_good o now tmA svc.URL hg hsA).1
  have hB := (computeServiceToken_good o now tmB svc.URL hg hsB).1
  unfold processService
  dsimp only
  rcases hE : (extractRouterConfigs svc.Labels svc.Name).isEmpty with _ | _
  · simp only [Bool.false_eq_true, if_false, Except.map]
    rw [hA, hB]
  · rw [if_pos rfl, if_pos rfl]

theorem processEnabledService_eq_none (o : Oracles) (now : Nat) (env : ProcEnv)
    (acc : CycleAcc) (svc : CloudRunService)
    (hlab : lookupStr svc.Labels "traefik_enable" = none) :
    processEnabledService o now env acc svc = acc := by
  unfold processEnabledService
  rw [hlab]

theorem processEnabledService_eq_notrue (o : Oracles) (now : Nat) (env : ProcEnv)
    (acc : CycleAcc) (svc : CloudRunService) (enabled : String)
    (hlab : lookupStr svc.Labels "traefik_enable" = some enabled)
    (hen : enabled ≠ "true") :
    processEnabledService o now env acc svc = acc := by
  unfold processEnabledService
  rw [hlab]
  dsimp only
  rw [if_neg hen]

theorem processEnabledService_eq_err (o : Oracles) (now : Nat) (env : ProcEnv)
    (acc : CycleAcc) (svc : CloudRunService) (enabled e : String)
    (hlab : lookupStr svc.Labels "traefik_enable" = some enabled)
    (hen : enabled = "true")
    (herr : processService o now env svc acc.config acc.tm = .error e) :
    processEnabledService o now env acc svc = acc := by
  unfold processEnabledService
  rw [hlab]
  dsimp only
  rw [if_pos hen, herr]

theorem processEnabledService_eq_ok (o : Oracles) (now : Nat) (env : ProcEnv)
    (acc : CycleAcc) (svc : CloudRunService) (enabled : String)
    (c' : DynamicConfig) (t' : TokenManagerState)
    (hlab : lookupStr svc.Labels "traefik_enable" = some enabled)
    (hen : enabled = "true")
    (hok : processService o now env svc acc.config acc.tm = .ok (c', t')) :
    processEnabledService o now env acc svc =
      { config := c', tm := t',
        homeIndexURL :=
          if strContains svc.Name "home-index" && svc.URL ≠ "" then svc.URL
          else acc.homeIndexURL } := by
  unfold processEnabledService
  rw [hlab]
  dsimp only
  rw [if_pos hen, hok]

theorem processEnabled_step (o : Oracles) (now : Nat) (env : ProcEnv)
    (svc : CloudRunService) (cfg : DynamicConfig) (hi : String)
    (tmA tmB : TokenManagerState)
    (hg : metadataFetchGood o svc.URL)
    (hsA : goodState o now tmA) (hsB : goodState o now tmB) :
    (processEnabledService o now env { config := cfg, tm := tmA, homeIndexURL := hi } svc).config
      = (processEnabledService o now env { config := cfg, tm := tmB, homeIndexURL := hi } svc).config ∧
    (processEnabledService o now env { config := cfg, tm := tmA, homeIndexURL := hi } svc).homeIndexURL
      = (processEnabledService o now env { config := cfg, tm := tmB, homeIndexURL := hi } svc).homeIndexURL ∧
    goodState o now
      (processEnabledService o now env { config := cfg, tm := tmA, homeIndexURL := hi } svc).tm ∧
    goodState o now
      (processEnabledService o now env { config := cfg, tm := tmB, homeIndexURL := hi } svc).tm := by
  rcases hlab : lookupStr svc.Labels "traefik_enable" with _ | enabled
  · rw [processEnabledService_eq_none o now env
        { config := cfg, tm := tmA, homeIndexURL := hi } svc hlab,
      processEnabledService_eq_none o now env
        { config := cfg, tm := tmB, homeIndexURL := hi } svc hlab]
    exact ⟨rfl, rfl, hsA, hsB⟩
  · by_cases hen : enabled = "true"
    · have hmap := processService_config_eq o now env svc cfg tmA tmB hg hsA hsB
      rcases hA : processService o now env svc cfg tmA with eA | pA <;>
        rcases hB : processService o now env svc cfg tmB with eB | pB
      · rw [processEnabledService_eq_err o now env
            { config := cfg, tm := tmA, homeIndexURL := hi } svc enabled eA hlab hen hA,
          processEnabledService_eq_err o now env
            { config := cfg, tm := tmB, homeIndexURL := hi } svc enabled eB hlab hen hB]
        exact ⟨rfl, rfl, hsA, hsB⟩
      · rw [hA, hB] at hmap
        simp [Except.map] at hmap
      · rw [hA, hB] at hmap
        simp [Except.map] at hmap
      · obtain ⟨cA, tA⟩ := pA
        obtain ⟨cB, tB⟩ := pB
        rw [hA, hB] at hmap
        simp only [Except.map] at hmap
        have hcc : cA = cB := by injection hmap
        have htA : tA = (computeServiceToken o now tmA svc.URL).state :=
          congrArg Prod.snd (processService_ok_inv o now env svc cfg cA tmA tA hA).2
        have htB : tB = (computeServiceToken o now tmB svc.URL).state :=
          congrArg Prod.snd (processService_ok_inv o now env svc cfg cB tmB tB hB).2
        rw [processEnabledService_eq_ok o now env
            { config := cfg, tm := tmA, homeIndexURL := hi } svc enabled cA tA hlab hen hA,
          processEnabledService_eq_ok o now env
            { config := cfg, tm := tmB, homeIndexURL := hi } svc enabled cB tB hlab hen hB]
        refine ⟨hcc, rfl, ?_, ?_⟩
        · show goodState o now tA
          rw [htA]
          exact (computeServiceToken_good o now tmA svc.URL hg hsA).2
        · show goodState o now tB
          rw [htB]
          exact (computeServiceToken_good o now tmB svc.URL hg hsB).2
    · rw [processEnabledService_eq_notrue o now env
          { config := cfg, tm := tmA, homeIndexURL := hi } svc enabled hlab hen,
        processEnabledService_eq_notrue o now env
          { config := cfg, tm := tmB, homeIndexURL := hi } svc enabled hlab hen]
      exact ⟨rfl, rfl, hsA, hsB⟩

theorem cycle_fold_eq (o : Oracles) (now : Nat) (env : ProcEnv)
    (services : List CloudRunService) :
    ∀ (cfg : DynamicConfig) (hi : String) (tmA tmB : TokenManagerState),
    (∀ svc, svc ∈ services → metadataFetchGood o svc.URL) →
    goodState o now tmA → goodState o now tmB →
    (services.foldl (fun a s => processEnabledService o now env a s)
        { config := cfg, tm := tmA, homeIndexURL := hi }).config
      = (services.foldl (fun a s => processEnabledService o now env a s)
        { config := cfg, tm := tmB, homeIndexURL := hi }).config ∧
    (services.foldl (fun a s => processEnabledService o now env a s)
        { config := cfg, tm := tmA, homeIndexURL := hi }).homeIndexURL
      = (services.foldl (fun a s => processEnabledService o now env a s)
        { config := cfg, tm := tmB, homeIndexURL := hi }).homeIndexURL ∧
    goodState o now ((services.foldl (fun a s => processEnabledService o now env a s)
        { config := cfg, tm := tmA, homeIndexURL := hi }).tm) ∧
    goodState o now ((services.foldl (fun a s => processEnabledService o now env a s)
        { config := cfg, tm := tmB, homeIndexURL := hi }).tm) := by
  induction services with
  | nil => intro cfg hi tmA tmB _ hsA hsB; exact ⟨rfl, rfl, hsA, hsB⟩
  | cons svc rest ih =>
    intro cfg hi tmA tmB hg hsA hsB
    have hgs : metadataFetchGood o svc.URL := hg svc (List.mem_cons_self _ _)
    have hgr : ∀ s, s ∈ rest → metadataFetchGood o s.URL :=
      fun s hs => hg s (List.mem_cons_of_mem _ hs)
    obtain ⟨hc1, hh1, hgA1, hgB1⟩ :=
      processEnabled_step o now env svc cfg hi tmA tmB hgs hsA hsB
    rw [List.foldl_cons, List.foldl_cons]
    generalize hGA : processEnabledService o now env
      { config := cfg, tm := tmA, homeIndexURL := hi } svc = A at hc1 hh1 hgA1 ⊢
    generalize hGB : processEnabledService o now env
      { config := cfg, tm := tmB, homeIndexURL := hi } svc = B at hc1 hh1 hgB1 ⊢
    obtain ⟨ca, ta, ha⟩ := A
    obtain ⟨cb, tb, hb⟩ := B
    dsimp only at hc1 hh1 hgA1 hgB1
    subst hc1
    subst hh1
    exact ih ca ha ta tb hgr hgA1 hgB1

/-- C9 counterexample oracle: the metadata fetch for the first backend fails
    with a transient transport error, while the second backend discovers the
    metadata server is absent and falls back to ADC (development mode). -/
def c9Oracle : Oracles :=
  { metadataHTTP := fun aud =>
      if aud = "https://a.example" then .netError "connection refused"
      else .netError "dial tcp: lookup metadata.google.internal: no such host",
    adc := fun aud =>
      if aud = "https://a.example" then .token "eyJA" else .token "eyJB" }

def c9ServiceA : CloudRunService :=
  { Name := "svc-a", URL := "https://a.example", ProjectID := "p",
    Labels := [("traefik_enable", "true"), ("traefik_http_routers_ra_rule", "Host(`a`)")] }

def c9ServiceB : CloudRunService :=
  { Name := "svc-b", URL := "https://b.example", ProjectID := "p",
    Labels := [("traefik_enable", "true"), ("traefik_http_routers_rb_rule", "Host(`b`)")] }

def c9Run1 : DynamicConfig × TokenManagerState :=
  updateConfig c9Oracle 0 {} [c9ServiceA, c9ServiceB] (NewTokenManager true)

def c9Run2 : DynamicConfig × TokenManagerState :=
  updateConfig c9Oracle 0 {} [c9ServiceA, c9ServiceB] c9Run1.2

/-- C9 counterexample: two cycles over the same two discovered backends at
    the same instant produce different configurations.  In cycle 1 the fetch
    for svc-a fails (transient error, nothing cached) and svc-b discovery
    flips the manager into the known-unavailable state; in cycle 2 svc-a is
    therefore fetched via the ADC path, which succeeds, so cycle 2 gains the
    svc-a-auth middleware that cycle 1 lacked — refuting the claim that two
    cycles with no time advance always yield identical configurations. -/
theorem C9_counterexample :
    lookupStr c9Run1.1.Middlewares "svc-a-auth" = none ∧
    lookupStr c9Run2.1.Middlewares "svc-a-auth" ≠ none ∧
    c9Run1.1 ≠ c9Run2.1 := by
  refine ⟨rfl, ?_, ?_⟩ <;> decide

/-- C9 (amended): if every discovered backend's metadata credential fetch
    succeeds with a signed token — so that every second-cycle credential
    request is a cache hit — then running the reconciliation cycle twice
    over the identical directory output with no advance of time yields
    identical configurations: the same routers, backends and middlewares. -/
theorem C9_idempotent_when_fetches_succeed
    (o : Oracles) (now : Nat) (env : ProcEnv)
    (services : List CloudRunService) (d : Bool)
    (hg : ∀ svc, svc ∈ services → metadataFetchGood o svc.URL) :
    (updateConfig o now env services (NewTokenManager d)).1
      = (updateConfig o now env services
          (updateConfig o now env services (NewTokenManager d)).2).1 := by
  have hs0 : goodState o now (NewTokenManager d) := by
    refine ⟨.inl rfl, ?_⟩
    intro url e h
    simp [NewTokenManager, lookupStr] at h
  obtain ⟨_, _, hgood1, _⟩ :=
    cycle_fold_eq o now env services NewDynamicConfig "" (NewTokenManager d)
      (NewTokenManager d) hg hs0 hs0
  obtain ⟨hcfg, hhi, _, _⟩ :=
    cycle_fold_eq o now env services NewDynamicConfig "" (NewTokenManager d)
      ((services.foldl (fun a s => processEnabledService o now env a s)
        { config := NewDynamicConfig, tm := NewTokenManager d, homeIndexURL := "" }).tm)
      hg hs0 hgood1
  show (updateConfig o now env services (NewTokenManager d)).1
    = (updateConfig o now env services
        (updateConfig o now env services (NewTokenManager d)).2).1
  unfold updateConfig
  dsimp only
  rw [hcfg, hhi]

/-- C9 witness inputs: a single backend whose metadata fetch succeeds. -/
def c9wOracle : Oracles :=
  { metadataHTTP := fun _ => .body "eyJW", adc := fun _ => .token "" }

def c9wService : CloudRunService :=
  { Name := "svc-w", URL := "https://w.example", ProjectID := "p",
    Labels := [("traefik_enable", "true"), ("traefik_http_routers_rw_rule", "Host(`w`)")] }

/-- Witness for C9 (amended) on a concrete backend list. -/
theorem C9_idempotent_when_fetches_succeed_witness :
    (updateConfig c9wOracle 0 {} [c9wService] (NewTokenManager false)).1
      = (updateConfig c9wOracle 0 {} [c9wService]
          (updateConfig c9wOracle 0 {} [c9wService] (NewTokenManager false)).2).1 :=
  C9_idempotent_when_fetches_succeed c9wOracle 0 {} [c9wService] false
    (by
      intro svc hmem
      rw [List.mem_singleton] at hmem
      subst hmem
      exact ⟨⟨"eyJW", rfl⟩, by decide⟩)
